import Mathlib

/-!
# Player42 Toolkit Script (`src/script.js`)

A shallow embedding of the page script: the rotating glitch title, the
"command copied" dialog, the clipboard copier, the social link router, the
image zoom modal and the background music controls.

The browser is modelled as a `World`: the elements the script looks up by
id, the body style, the rotation cursor, the document listeners, the pending
timers and promise reactions, and a chronological trace of the observable
effects (DOM mutations, console output, windows opened, clipboard writes,
media requests).  Every function of the script is a function on worlds.
-/

namespace Script

/-! ## Values and effects -/

/-- Errors a script statement can raise. -/
inductive JSError
  | typeError (msg : String)
deriving DecidableEq, Repr

/-- The JavaScript values that a property read on the link table can produce. -/
inductive JSValue
  | undefined
  | str (s : String)
  | func (name : String)
  | object (name : String)
deriving DecidableEq, Repr

/-- ToBoolean on the values above: `undefined` and the empty string are falsy. -/
def JSValue.truthy : JSValue → Bool
  | .undefined => false
  | .str s => s != ""
  | .func _ => true
  | .object _ => true

/-- How an asynchronous platform request (clipboard write, media play) settles. -/
inductive Settled
  | fulfilled
  | rejected (reason : String)
deriving DecidableEq, Repr

/-- Observable effects, recorded in the trace in the order they happen. -/
inductive Effect
  | classAdd (id : String) (tokens : List String)
  | classRemove (id : String) (tokens : List String)
  | setTextContent (id text : String)
  | setAttribute (id name value : String)
  | setSrc (id value : String)
  | setInnerHTML (id html : String)
  | setBodyOverflow (value : String)
  | setCardProperty (index : Nat) (name : String) (value : Nat)
  | consoleWarn (msg : String)
  | consoleError (msg : String) (err : String)
  | windowOpen (url : JSValue) (target : String)
  | clipboardWrite (text : String)
  | play (id : String)
  | pause (id : String)
  | createIcons
  | call (fn : String)
  | uncaught (e : JSError)
deriving DecidableEq, Repr

/-! ## Title data (lines 7-13) -/

structure Title where
  text : String
  style : String
deriving DecidableEq, Repr

def titles : List Title := [
  ⟨"Wuthering Waves Config File Setup Toolkit", "style-1"⟩,
  ⟨"Resonator Settings Optimization Interface", "style-2"⟩,
  ⟨"Wuwa Performance Tweak Utility Portal", "style-3"⟩,
  ⟨"Kuro Game Engine Parameter Adjuster", "style-1"⟩
]

/-! ## Elements -/

/-- The properties of a page element that the script reads or writes.
`innerText` is the rendered text handed out by the layout engine; `paused`
is meaningful on the audio element. -/
structure Element where
  classList : List String := []
  textContent : String := ""
  attributes : List (String × String) := []
  src : String := ""
  innerHTML : String := ""
  innerText : String := ""
  paused : Bool := true
deriving DecidableEq, Repr

/-- DOMTokenList `add`: each token is appended unless already present. -/
def classListAdd (tokens : List String) (cl : List String) : List String :=
  tokens.foldl (fun acc t => if t ∈ acc then acc else acc ++ [t]) cl

/-- DOMTokenList `remove`: every occurrence of each token is dropped. -/
def classListRemove (tokens : List String) (cl : List String) : List String :=
  cl.filter (fun t => !tokens.contains t)

/-- Element `setAttribute`: overwrite the first attribute of that name, or append. -/
def setAttr (name value : String) : List (String × String) → List (String × String)
  | [] => [(name, value)]
  | (k, v) :: rest =>
    if k = name then (k, value) :: rest else (k, v) :: setAttr name value rest

/-- Element `getAttribute`. -/
def getAttr (name : String) : List (String × String) → Option String
  | [] => none
  | (k, v) :: rest => if k = name then some v else getAttr name rest

/-- The call `document.getElementById`: the first element carrying the id. -/
def getElementById (id : String) : List (String × Element) → Option Element
  | [] => none
  | (k, e) :: rest => if k = id then some e else getElementById id rest

/-- Mutation through an element reference: the element found by
`getElementById` is replaced by its updated version. -/
def modifyElem (id : String) (f : Element → Element) :
    List (String × Element) → List (String × Element)
  | [] => []
  | (k, e) :: rest =>
    if k = id then (k, f e) :: rest else (k, e) :: modifyElem id f rest

/-! ## Timers, promise reactions, listeners -/

/-- The callbacks handed to `setTimeout` and `setInterval`. -/
inductive Callback
  | swapTitle (nextTitle : Option Title)
  | glitchOn
  | glitchOff
  | updateGlitchTitle
deriving DecidableEq, Repr

structure Timer where
  due : Nat
  period : Option Nat
  cb : Callback
deriving DecidableEq, Repr

/-- The promise reactions the script attaches with `.then` and `.catch`. -/
inductive Job
  | copyThen
  | copyCatch (err : String)
  | toggleCatch (err : String)
  | firstInteractionCatch (err : String)
deriving DecidableEq, Repr

/-- The functions the script registers as event listeners. -/
inductive Handler
  | toggleMusic
  | playMusicOnFirstInteraction
deriving DecidableEq, Repr

structure Listener where
  target : String
  type : String
  handler : Handler
deriving DecidableEq, Repr

/-! ## The world -/

structure World where
  /-- Elements of the document that carry an id, in tree order. -/
  dom : List (String × Element) := []
  /-- The value of `document.body.style.overflow`. -/
  bodyOverflow : String := ""
  /-- The custom property `--i` of each `.ui-card` element. -/
  uiCards : List (Option Nat) := []
  /-- The module variable `currentTitleIndex` (line 13). -/
  currentTitleIndex : Nat := 0
  /-- Whether `window.lucide` is defined. -/
  hasLucide : Bool := true
  /-- The object `navigator.clipboard`: absent, or how its writes settle. -/
  clipboard : Option Settled := some .fulfilled
  /-- How a `play()` request on the audio element settles. -/
  playOutcome : Settled := .fulfilled
  listeners : List Listener := []
  timers : List Timer := []
  pending : List Job := []
  now : Nat := 0
  trace : List (Nat × Effect) := []
deriving DecidableEq, Repr

/-- The page state proper: the world without its trace of effects. -/
def World.state (w : World) : World := { w with trace := [] }

/-- Append an effect to the trace, stamped with the current time. -/
def World.emit (e : Effect) (w : World) : World :=
  { w with trace := w.trace ++ [(w.now, e)] }

/-- The element with the given id.  The module constants `titleElement`,
`dialogScrim`, `dialogContainer`, `zoomModal`, `zoomImage`, `bgMusic` and
`musicToggleBtn` hold the result of `getElementById` when the script loads; the
script never adds or removes an element, so each of them is `w.elem` of its id. -/
def World.elem (id : String) (w : World) : Option Element :=
  getElementById id w.dom

/-- A write through an element reference. -/
def World.update (id : String) (f : Element → Element) (w : World) : World :=
  { w with dom := modifyElem id f w.dom }

/-- The statement `e.classList.add(...tokens)` on the element with this id. -/
def World.classAdd (id : String) (tokens : List String) (w : World) : World :=
  (w.update id (fun e => { e with classList := classListAdd tokens e.classList })).emit
    (.classAdd id tokens)

/-- The statement `e.classList.remove(...tokens)` on the element with this id. -/
def World.classRemove (id : String) (tokens : List String) (w : World) : World :=
  (w.update id (fun e => { e with classList := classListRemove tokens e.classList })).emit
    (.classRemove id tokens)

def World.setTextContent (id text : String) (w : World) : World :=
  (w.update id (fun e => { e with textContent := text })).emit (.setTextContent id text)

def World.setAttribute (id name value : String) (w : World) : World :=
  (w.update id (fun e => { e with attributes := setAttr name value e.attributes })).emit
    (.setAttribute id name value)

def World.setSrc (id value : String) (w : World) : World :=
  (w.update id (fun e => { e with src := value })).emit (.setSrc id value)

def World.setInnerHTML (id html : String) (w : World) : World :=
  (w.update id (fun e => { e with innerHTML := html })).emit (.setInnerHTML id html)

def World.setBodyOverflow (value : String) (w : World) : World :=
  { w with bodyOverflow := value }.emit (.setBodyOverflow value)

/-- The call `setTimeout(cb, delay)`. -/
def World.setTimeout (cb : Callback) (delay : Nat) (w : World) : World :=
  { w with timers := w.timers ++ [⟨w.now + delay, none, cb⟩] }

/-- The call `setInterval(cb, period)`. -/
def World.setInterval (cb : Callback) (period : Nat) (w : World) : World :=
  { w with timers := w.timers ++ [⟨w.now + period, some period, cb⟩] }

/-- Attach a reaction to a promise; it runs once the current script has returned. -/
def World.enqueue (j : Job) (w : World) : World :=
  { w with pending := w.pending ++ [j] }

/-- The result of running a function body: the world reached and the exception
raised to the caller, if any. -/
structure Completion where
  world : World
  thrown : Option JSError
deriving DecidableEq, Repr

/-! ## Title rotation (lines 14-55) -/

/-- Transcription of `updateGlitchTitle`; `titleElement` is the element with
id `main-title`, looked up once when the script loads. -/
def updateGlitchTitle (w : World) : World :=
  if (w.elem "main-title").isNone then w else
  let nextTitle := titles[w.currentTitleIndex]?
  let w := { w with currentTitleIndex := (w.currentTitleIndex + 1) % titles.length }
  let w := w.classAdd "main-title" ["glitch-flicker-out"]
  let w := w.classRemove "main-title" ["glitch-effect"]
  w.setTimeout (.swapTitle nextTitle) 50

/-- The outer delayed callback (lines 33-54).  Reading `.text` of an
undefined `nextTitle` raises inside the timer task, which ends the callback. -/
def swapTitle (nextTitle : Option Title) (w : World) : World :=
  let w := w.classRemove "main-title" ["style-1", "style-2", "style-3", "glitch-flicker-out"]
  match nextTitle with
  | none => w.emit (.uncaught (.typeError "nextTitle is undefined"))
  | some t =>
    let w := w.setTextContent "main-title" t.text
    let w := w.setAttribute "main-title" "data-text" t.text
    let w := w.classAdd "main-title" [t.style]
    let w := w.setTimeout .glitchOn 10
    w.setTimeout .glitchOff 450

def runCallback : Callback → World → World
  | .swapTitle nextTitle, w => swapTitle nextTitle w
  | .glitchOn, w => w.classAdd "main-title" ["glitch-effect"]
  | .glitchOff, w => w.classRemove "main-title" ["glitch-effect"]
  | .updateGlitchTitle, w => updateGlitchTitle w

/-- The timer that fires next: the earliest due, and among equally due timers
the one registered first. -/
def earliest : List Timer → Option Timer
  | [] => none
  | t :: rest =>
    match earliest rest with
    | none => some t
    | some u => if t.due ≤ u.due then some t else some u

/-- One turn of the event loop on the timer queue: the clock advances to the
due time, a repeating timer is re-armed, and the callback runs. -/
def fireTimer (w : World) : Option World :=
  match earliest w.timers with
  | none => none
  | some t =>
    let w := { w with timers := w.timers.erase t, now := max w.now t.due }
    let w := match t.period with
      | none => w
      | some p => { w with timers := w.timers ++ [⟨t.due + p, some p, t.cb⟩] }
    some (runCallback t.cb w)

/-- Run at most `fuel` timer tasks. -/
def runTimers : Nat → World → World
  | 0, w => w
  | fuel + 1, w =>
    match fireTimer w with
    | none => w
    | some w' => runTimers fuel w'

/-! ## Dialog (lines 59-78) -/

/-- Transcription of `showDialog`.  The trace also records each entry into the
function, so that its invocations can be counted. -/
def showDialog (w : World) : World :=
  let w := w.emit (.call "showDialog")
  if (w.elem "dialog-scrim").isNone || (w.elem "dialog-container").isNone then w else
  let w := w.classAdd "dialog-scrim" ["visible"]
  w.classAdd "dialog-container" ["visible"]

def closeDialog (w : World) : World :=
  if (w.elem "dialog-scrim").isNone || (w.elem "dialog-container").isNone then w else
  let w := w.classRemove "dialog-scrim" ["visible"]
  w.classRemove "dialog-container" ["visible"]

/-! ## Clipboard (lines 85-98) -/

/-- The code points `String.prototype.trim` strips: WhiteSpace and LineTerminator. -/
def isJSWhiteSpace (c : Char) : Bool :=
  c.toNat ∈ [0x09, 0x0A, 0x0B, 0x0C, 0x0D, 0x20, 0xA0, 0x1680, 0x2028, 0x2029,
    0x202F, 0x205F, 0x3000, 0xFEFF] || (0x2000 ≤ c.toNat && c.toNat ≤ 0x200A)

def trimChars (cs : List Char) : List Char :=
  ((cs.dropWhile isJSWhiteSpace).reverse.dropWhile isJSWhiteSpace).reverse

/-- The method `String.prototype.trim`. -/
def jsTrim (s : String) : String := String.mk (trimChars s.data)

/-- Transcription of `copyToClipboard`.  The promise returned by `writeText`
settles as the world says; the attached reaction is queued. -/
def copyToClipboard (elementId : String) (w : World) : Completion :=
  match w.elem elementId with
  | none => ⟨w.emit (.consoleWarn ("Element #" ++ elementId ++ " not found.")), none⟩
  | some el =>
    let textToCopy := jsTrim el.innerText
    match w.clipboard with
    | none => ⟨w, some (.typeError "navigator.clipboard is undefined")⟩
    | some outcome =>
      let w := w.emit (.clipboardWrite textToCopy)
      match outcome with
      | .fulfilled => ⟨w.enqueue .copyThen, none⟩
      | .rejected err => ⟨w.enqueue (.copyCatch err), none⟩

def copyCommand (id : String) (w : World) : Completion :=
  copyToClipboard id w

/-- Run one promise reaction (lines 91, 92, 162, 177). -/
def runJob : Job → World → World
  | .copyThen, w => showDialog w
  | .copyCatch err, w => w.emit (.consoleError "Failed to copy text:" err)
  | .toggleCatch err, w => w.emit (.consoleError "Audio playback failed:" err)
  | .firstInteractionCatch _, w => w

/-- Run the queued promise reactions, in order. -/
def settle (w : World) : World :=
  w.pending.foldl (fun acc j => runJob j acc) { w with pending := [] }

/-! ## Social links (lines 105-116) -/

/-- The own properties of the object literal `links`. -/
def links : List (String × JSValue) := [
  ("discord", .str "https://discord.gg/VV4w5AdJFh"),
  ("telegram", .str "https://t.me/Yt_Player42"),
  ("youtube", .str "https://www.youtube.com/@Player42_g")
]

/-- The properties every object literal inherits from `Object.prototype`;
`__proto__` reads as the prototype object itself. -/
def objectPrototype : List (String × JSValue) := [
  ("constructor", .func "Object"),
  ("__defineGetter__", .func "__defineGetter__"),
  ("__defineSetter__", .func "__defineSetter__"),
  ("hasOwnProperty", .func "hasOwnProperty"),
  ("__lookupGetter__", .func "__lookupGetter__"),
  ("__lookupSetter__", .func "__lookupSetter__"),
  ("isPrototypeOf", .func "isPrototypeOf"),
  ("propertyIsEnumerable", .func "propertyIsEnumerable"),
  ("toString", .func "toString"),
  ("valueOf", .func "valueOf"),
  ("__proto__", .object "Object.prototype"),
  ("toLocaleString", .func "toLocaleString")
]

/-- The property read `obj[key]` on an object literal: own properties first,
then the prototype, otherwise `undefined`. -/
def getProperty (own : List (String × JSValue)) (key : String) : JSValue :=
  match own.lookup key with
  | some v => v
  | none =>
    match objectPrototype.lookup key with
    | some v => v
    | none => .undefined

def goToSocialLink (platform : String) (w : World) : World :=
  if (getProperty links platform).truthy then
    w.emit (.windowOpen (getProperty links platform) "_blank")
  else
    w.emit (.consoleWarn ("No link configured for platform: " ++ platform))

/-! ## Zoom modal (lines 119-143) -/

/-- Transcription of `openZoom`; the caption element is looked up at call time
and its `textContent` is written without a null check. -/
def openZoom (src title : String) (w : World) : Completion :=
  if (w.elem "zoom-modal").isNone || (w.elem "zoom-image").isNone then ⟨w, none⟩ else
  let w := w.setSrc "zoom-image" src
  match w.elem "zoom-title" with
  | none => ⟨w, some (.typeError "document.getElementById(...) is null")⟩
  | some _ =>
    let w := w.setTextContent "zoom-title" title
    let w := w.classAdd "zoom-modal" ["visible"]
    ⟨w.setBodyOverflow "hidden", none⟩

/-- Transcription of `closeZoom`; only `zoomModal` is checked before
`zoomImage.src` is written. -/
def closeZoom (w : World) : Completion :=
  if (w.elem "zoom-modal").isNone then ⟨w, none⟩ else
  let w := w.classRemove "zoom-modal" ["visible"]
  let w := w.setBodyOverflow "auto"
  match w.elem "zoom-image" with
  | none => ⟨w, some (.typeError "zoomImage is null")⟩
  | some _ => ⟨w.setSrc "zoom-image" "", none⟩

/-! ## Music (lines 147-184) -/

/-- The method `pause()` of the audio element. -/
def World.pause (id : String) (w : World) : World :=
  (w.update id (fun e => { e with paused := true })).emit (.pause id)

/-- The method `play()` of the audio element followed by `.catch(onReject)`:
an accepted request clears `paused` at once, a rejected one leaves the element
as it was and queues the rejection handler. -/
def World.play (id : String) (onReject : String → Job) (w : World) : World :=
  let w := w.emit (.play id)
  match w.playOutcome with
  | .fulfilled => w.update id (fun e => { e with paused := false })
  | .rejected err => w.enqueue (onReject err)

def toggleMusic (w : World) : World :=
  match w.elem "background-music" with
  | none => w
  | some bgMusic =>
    if (w.elem "music-toggle").isNone then w else
    let isPlaying := !bgMusic.paused
    let w :=
      if isPlaying then
        (w.pause "background-music").setInnerHTML "music-toggle"
          "<i data-lucide=\"volume-x\"></i>"
      else
        (w.play "background-music" .toggleCatch).setInnerHTML "music-toggle"
          "<i data-lucide=\"volume-2\"></i>"
    if w.hasLucide then w.emit .createIcons else w

/-- The call `target.addEventListener(type, handler)`: a registration already
present is not duplicated. -/
def World.addEventListener (target type : String) (handler : Handler) (w : World) : World :=
  if (⟨target, type, handler⟩ : Listener) ∈ w.listeners then w
  else { w with listeners := w.listeners ++ [⟨target, type, handler⟩] }

/-- The call `target.removeEventListener(type, handler)`. -/
def World.removeEventListener (target type : String) (handler : Handler) (w : World) : World :=
  { w with listeners := w.listeners.filter (fun l => l ≠ ⟨target, type, handler⟩) }

def playMusicOnFirstInteraction (w : World) : World :=
  let w :=
    match w.elem "background-music" with
    | none => w
    | some bgMusic =>
      if bgMusic.paused then w.play "background-music" .firstInteractionCatch else w
  let w := w.removeEventListener "document" "click" .playMusicOnFirstInteraction
  w.removeEventListener "document" "keydown" .playMusicOnFirstInteraction

/-! ## Page initialisation and event dispatch (lines 191-216) -/

/-- The loop `uiCards.forEach((card, index) => card.style.setProperty('--i', index + 1))`. -/
def setCardIndices (w : World) : World :=
  (List.range w.uiCards.length).foldl
    (fun acc index =>
      { acc with uiCards := acc.uiCards.set index (some (index + 1)) }.emit
        (.setCardProperty index "--i" (index + 1)))
    w

/-- The `DOMContentLoaded` handler. -/
def init (w : World) : World :=
  let w := if w.hasLucide then w.emit .createIcons else w
  let w := setCardIndices w
  let w :=
    if (w.elem "main-title").isSome then
      (updateGlitchTitle w).setInterval .updateGlitchTitle 8000
    else w
  let w :=
    if (w.elem "music-toggle").isSome then
      w.addEventListener "music-toggle" "click" .toggleMusic
    else w
  let w := w.addEventListener "document" "click" .playMusicOnFirstInteraction
  w.addEventListener "document" "keydown" .playMusicOnFirstInteraction

/-- The name of a registered function, as the dispatcher records it. -/
def Handler.fn : Handler → String
  | .toggleMusic => "toggleMusic"
  | .playMusicOnFirstInteraction => "playMusicOnFirstInteraction"

/-- Invoke a listener as an event callback: the invocation is recorded in the
trace, the function runs, and promise reactions run when it returns. -/
def runHandler (h : Handler) (w : World) : World :=
  let w := w.emit (.call h.fn)
  match h with
  | .toggleMusic => settle (toggleMusic w)
  | .playMusicOnFirstInteraction => settle (playMusicOnFirstInteraction w)

/-- The listeners of one target on the path of an event: those registered for
the type when the target is reached run in order, each only if it is still
registered. -/
def dispatchAt (target type : String) (w : World) : World :=
  (w.listeners.filter (fun l => l.target = target && l.type = type)).foldl
    (fun acc l => if l ∈ acc.listeners then runHandler l.handler acc else acc)
    w

/-- A user event: its type and the ids of the event target and of its
ancestors that carry an id, innermost first (empty for an event fired at the
document itself). -/
structure DomEvent where
  type : String
  path : List String
deriving DecidableEq, Repr

/-- Dispatch an event: it visits its target, then bubbles through the
ancestors and ends at the document, running the listeners of each in turn. -/
def dispatch (ev : DomEvent) (w : World) : World :=
  (ev.path ++ ["document"]).foldl (fun acc target => dispatchAt target ev.type acc) w

/-- Number of playback requests recorded in a trace. -/
def playRequests (tr : List (Nat × Effect)) : Nat :=
  tr.countP (fun x => match x.2 with | .play _ => true | _ => false)

/-- Number of recorded entries into the named function. -/
def callsTo (fn : String) (tr : List (Nat × Effect)) : Nat :=
  tr.countP (fun x => x.2 = .call fn)

/-! ## Call sequences and sample pages -/

/-- A page with both dialog elements, the container already visible. -/
def dialogPage : World :=
  { dom := [("dialog-scrim", {}), ("dialog-container", { classList := ["card", "visible"] })] }

/-- The world once the script has been evaluated on a page, before the
`DOMContentLoaded` handler runs: cursor 0 (line 13), nothing scheduled. -/
def loaded (dom : List (String × Element)) (bodyOverflow : String) (uiCards : List (Option Nat))
    (hasLucide : Bool) (clipboard : Option Settled) (playOutcome : Settled) : World :=
  { dom := dom, bodyOverflow := bodyOverflow, uiCards := uiCards, currentTitleIndex := 0,
    hasLucide := hasLucide, clipboard := clipboard, playOutcome := playOutcome,
    listeners := [], timers := [], pending := [], now := 0, trace := [] }

/-- The three style markers of the title list. -/
def styleMarkers : List String := ["style-1", "style-2", "style-3"]

/-- A page that has the title element, carrying stale markers. -/
def titlePage : World :=
  loaded [("main-title", { classList := ["hero", "style-2", "glitch-effect"] })] "" [] true
    (some .fulfilled) .fulfilled

/-- Call `updateGlitchTitle` and let its delayed callbacks fire (at most `fuel`
timer tasks), `n` times in a row. -/
def rotate (fuel : Nat) : Nat → World → World
  | 0, w => w
  | n + 1, w => runTimers fuel (updateGlitchTitle (rotate fuel n w))

/-- A sequence of `openZoom(src, title)` calls, each made from its own event handler. -/
def openZoomAll (calls : List (String × String)) (w : World) : World :=
  calls.foldl (fun acc c => (openZoom c.1 c.2 acc).world) w

/-- A gallery page with the three zoom elements. -/
def zoomPage : World :=
  loaded [("zoom-modal", {}), ("zoom-image", {}), ("zoom-title", {})] "" [] true
    (some .fulfilled) .fulfilled

/-- A page with the audio element playing and the toggle button. -/
def musicPage : World :=
  loaded [("background-music", { paused := false }), ("music-toggle", {})] "" [] true
    (some .fulfilled) .fulfilled

/-- The markup `toggleMusic` writes for the muted glyph. -/
def mutedIcon : String := "<i data-lucide=\"volume-x\"></i>"

/-- The markup `toggleMusic` writes for the unmuted glyph. -/
def unmutedIcon : String := "<i data-lucide=\"volume-2\"></i>"

/-- The registration made by line 213. -/
def clickListener : Listener := ⟨"document", "click", .playMusicOnFirstInteraction⟩

/-- The registration made by line 214. -/
def keydownListener : Listener := ⟨"document", "keydown", .playMusicOnFirstInteraction⟩

/-- A sequence of user events, dispatched one after the other. -/
def dispatchAll (events : List DomEvent) (w : World) : World :=
  events.foldl (fun acc ev => dispatch ev acc) w

/-- An initialised page whose audio is paused and whose `play()` requests are
rejected (autoplay blocked, or no playable source). -/
def silentPage : World :=
  init (loaded [("background-music", { paused := true }), ("music-toggle", {})] "" [] true
    (some .fulfilled) (.rejected "NotAllowedError"))

/-- A page with a command block to copy and the confirmation dialog. -/
def commandPage : World :=
  loaded [("cmd-1", { innerText := "  npm run setup \n" }), ("dialog-scrim", {}),
    ("dialog-container", {})] "" [] true (some .fulfilled) .fulfilled

/-- A gallery page whose modal is present and open but whose image element is missing. -/
def galleryNoImage : World :=
  loaded [("zoom-modal", { classList := ["visible"] })] "hidden" [] true (some .fulfilled)
    .fulfilled

/-- A gallery page with the modal and the image but no caption element. -/
def galleryNoCaption : World :=
  loaded [("zoom-modal", {}), ("zoom-image", {})] "" [] true (some .fulfilled) .fulfilled

/-- A page served without the clipboard capability (`navigator.clipboard` undefined). -/
def noClipboardPage : World :=
  loaded [("cmd-1", { innerText := "npm run setup" })] "" [] true none .fulfilled

/-- The registrations of `playMusicOnFirstInteraction` that are in place. -/
def firstInteractionListeners (w : World) : List Listener :=
  w.listeners.filter (fun l => l.handler = .playMusicOnFirstInteraction)

/-- The page is armed (both registrations of lines 213-214 in place, the
function never invoked) or spent (no registration left, invoked at most once). -/
def ArmedOrSpent (w : World) : Prop :=
  (firstInteractionListeners w = [clickListener, keydownListener] ∧
    callsTo "playMusicOnFirstInteraction" w.trace = 0) ∨
  (firstInteractionListeners w = [] ∧ callsTo "playMusicOnFirstInteraction" w.trace ≤ 1)

/-! # Properties -/

/-! ## Lemmas on the element store -/

theorem getElementById_modifyElem (id id' : String) (f : Element → Element)
    (dom : List (String × Element)) :
    getElementById id (modifyElem id' f dom) =
      if id = id' then (getElementById id dom).map f else getElementById id dom := by
  induction dom with
  | nil => simp [getElementById, modifyElem]
  | cons p rest ih =>
    obtain ⟨k, e⟩ := p
    by_cases h1 : k = id' <;> by_cases h2 : k = id <;> by_cases h3 : id = id' <;>
      simp_all [getElementById, modifyElem]

theorem modifyElem_modifyElem (id : String) (f g : Element → Element)
    (dom : List (String × Element)) :
    modifyElem id f (modifyElem id g dom) = modifyElem id (fun e => f (g e)) dom := by
  induction dom with
  | nil => simp [modifyElem]
  | cons p rest ih =>
    obtain ⟨k, e⟩ := p
    by_cases h1 : k = id <;> simp_all [modifyElem]

theorem modifyElem_comm (id id' : String) (h : id ≠ id') (f g : Element → Element)
    (dom : List (String × Element)) :
    modifyElem id f (modifyElem id' g dom) = modifyElem id' g (modifyElem id f dom) := by
  induction dom with
  | nil => simp [modifyElem]
  | cons p rest ih =>
    obtain ⟨k, e⟩ := p
    by_cases h1 : k = id <;> by_cases h2 : k = id' <;> simp_all [modifyElem]

theorem modifyElem_absent (id : String) (f : Element → Element)
    (dom : List (String × Element)) (h : getElementById id dom = none) :
    modifyElem id f dom = dom := by
  induction dom with
  | nil => simp [modifyElem]
  | cons p rest ih =>
    obtain ⟨k, e⟩ := p
    by_cases h1 : k = id <;> simp_all [modifyElem, getElementById]

theorem classListAdd_single (t : String) (cl : List String) :
    classListAdd [t] cl = if t ∈ cl then cl else cl ++ [t] := by
  simp [classListAdd]

theorem mem_classListAdd_single (t : String) (cl : List String) :
    t ∈ classListAdd [t] cl := by
  rw [classListAdd_single]; split <;> simp_all

theorem classListAdd_idem (t : String) (cl : List String) :
    classListAdd [t] (classListAdd [t] cl) = classListAdd [t] cl := by
  have h := mem_classListAdd_single t cl
  conv_lhs => rw [classListAdd_single]
  simp [h]

theorem classListRemove_idem (ts : List String) (cl : List String) :
    classListRemove ts (classListRemove ts cl) = classListRemove ts cl := by
  simp [classListRemove, List.filter_filter]

theorem not_mem_classListRemove (t : String) (ts cl : List String) (h : t ∈ ts) :
    t ∉ classListRemove ts cl := by
  simp [classListRemove, h]

@[simp] theorem elem_update (id id' : String) (f : Element → Element) (w : World) :
    (w.update id' f).elem id = if id = id' then (w.elem id).map f else w.elem id := by
  simp [World.update, World.elem, getElementById_modifyElem]

@[simp] theorem elem_emit (id : String) (e : Effect) (w : World) :
    (w.emit e).elem id = w.elem id := rfl


@[simp] theorem elem_state (id : String) (w : World) : w.state.elem id = w.elem id := rfl

@[simp] theorem state_emit (e : Effect) (w : World) : (w.emit e).state = w.state := rfl

@[simp] theorem state_update (id : String) (f : Element → Element) (w : World) :
    (w.update id f).state = w.state.update id f := rfl

theorem update_update (id : String) (f g : Element → Element) (w : World) :
    (w.update id g).update id f = w.update id (fun e => f (g e)) := by
  simp [World.update, modifyElem_modifyElem]

theorem update_comm (id id' : String) (h : id ≠ id') (f g : Element → Element) (w : World) :
    (w.update id' g).update id f = (w.update id f).update id' g := by
  simp [World.update, modifyElem_comm id id' h]

theorem update_absent (id : String) (f : Element → Element) (w : World)
    (h : w.elem id = none) : w.update id f = w := by
  simp [World.update, modifyElem_absent id f w.dom h]

theorem showDialog_bound (w : World) (hs : (w.elem "dialog-scrim").isSome)
    (hc : (w.elem "dialog-container").isSome) :
    showDialog w =
      ((w.emit (.call "showDialog")).classAdd "dialog-scrim" ["visible"]).classAdd
        "dialog-container" ["visible"] := by
  unfold showDialog
  simp only [elem_emit]
  rw [if_neg]
  simp [Option.isSome_iff_ne_none.mp hs, Option.isSome_iff_ne_none.mp hc]

theorem showDialog_unbound (w : World)
    (h : (w.elem "dialog-scrim").isNone ∨ (w.elem "dialog-container").isNone) :
    showDialog w = w.emit (.call "showDialog") := by
  unfold showDialog
  simp only [elem_emit]
  rw [if_pos]
  simpa using h

theorem closeDialog_bound (w : World) (hs : (w.elem "dialog-scrim").isSome)
    (hc : (w.elem "dialog-container").isSome) :
    closeDialog w =
      (w.classRemove "dialog-scrim" ["visible"]).classRemove "dialog-container" ["visible"] := by
  unfold closeDialog
  rw [if_neg]
  simp [Option.isSome_iff_ne_none.mp hs, Option.isSome_iff_ne_none.mp hc]

theorem closeDialog_unbound (w : World)
    (h : (w.elem "dialog-scrim").isNone ∨ (w.elem "dialog-container").isNone) :
    closeDialog w = w := by
  unfold closeDialog
  rw [if_pos]
  simpa using h

@[simp] theorem elem_classAdd (id id' : String) (ts : List String) (w : World) :
    (w.classAdd id' ts).elem id =
      if id = id' then
        (w.elem id).map (fun e => { e with classList := classListAdd ts e.classList })
      else w.elem id := by
  simp [World.classAdd]

@[simp] theorem elem_classRemove (id id' : String) (ts : List String) (w : World) :
    (w.classRemove id' ts).elem id =
      if id = id' then
        (w.elem id).map (fun e => { e with classList := classListRemove ts e.classList })
      else w.elem id := by
  simp [World.classRemove]

@[simp] theorem state_classAdd (id : String) (ts : List String) (w : World) :
    (w.classAdd id ts).state =
      w.state.update id (fun e => { e with classList := classListAdd ts e.classList }) := rfl

@[simp] theorem state_classRemove (id : String) (ts : List String) (w : World) :
    (w.classRemove id ts).state =
      w.state.update id (fun e => { e with classList := classListRemove ts e.classList }) := rfl

theorem showDialog_idem (w : World) :
    (showDialog (showDialog w)).state = (showDialog w).state := by
  by_cases hs : (w.elem "dialog-scrim").isSome
  · by_cases hc : (w.elem "dialog-container").isSome
    · have hs' : ((showDialog w).elem "dialog-scrim").isSome := by
        rw [showDialog_bound w hs hc]; simpa using hs
      have hc' : ((showDialog w).elem "dialog-container").isSome := by
        rw [showDialog_bound w hs hc]; simpa using hc
      rw [showDialog_bound _ hs' hc', showDialog_bound w hs hc]
      simp only [state_classAdd, state_emit]
      rw [update_comm "dialog-scrim" "dialog-container" (by decide), update_update,
        update_update]
      simp only [classListAdd_idem]
    · have h : (w.elem "dialog-scrim").isNone ∨ (w.elem "dialog-container").isNone :=
        Or.inr (by simpa using hc)
      rw [showDialog_unbound w h, showDialog_unbound _ (by simpa using h)]
      simp
  · have h : (w.elem "dialog-scrim").isNone ∨ (w.elem "dialog-container").isNone :=
      Or.inl (by simpa using hs)
    rw [showDialog_unbound w h, showDialog_unbound _ (by simpa using h)]
    simp


theorem closeDialog_idem (w : World) :
    closeDialog (closeDialog w) = closeDialog w ∨
      (closeDialog (closeDialog w)).state = (closeDialog w).state := by
  by_cases hs : (w.elem "dialog-scrim").isSome
  · by_cases hc : (w.elem "dialog-container").isSome
    · right
      have hs' : ((closeDialog w).elem "dialog-scrim").isSome := by
        rw [closeDialog_bound w hs hc]; simpa using hs
      have hc' : ((closeDialog w).elem "dialog-container").isSome := by
        rw [closeDialog_bound w hs hc]; simpa using hc
      rw [closeDialog_bound _ hs' hc', closeDialog_bound w hs hc]
      simp only [state_classRemove]
      rw [update_comm "dialog-scrim" "dialog-container" (by decide), update_update,
        update_update]
      simp only [classListRemove_idem]
    · left
      have h : (w.elem "dialog-scrim").isNone ∨ (w.elem "dialog-container").isNone :=
        Or.inr (by simpa using hc)
      rw [closeDialog_unbound w h, closeDialog_unbound w h]
  · left
    have h : (w.elem "dialog-scrim").isNone ∨ (w.elem "dialog-container").isNone :=
      Or.inl (by simpa using hs)
    rw [closeDialog_unbound w h, closeDialog_unbound w h]

/-! ## The dialog controller -/

/-- C9: `showDialog` and `closeDialog` are idempotent on the page state; with
both dialog elements bound, `showDialog` leaves both carrying the `visible`
marker and `closeDialog` leaves neither carrying it; if either element is
unbound both functions leave the page state unchanged. -/
theorem dialog_idempotent (w : World) :
    (showDialog (showDialog w)).state = (showDialog w).state ∧
    (closeDialog (closeDialog w)).state = (closeDialog w).state ∧
    ((w.elem "dialog-scrim").isSome → (w.elem "dialog-container").isSome →
      (∃ s, (showDialog w).elem "dialog-scrim" = some s ∧ "visible" ∈ s.classList) ∧
      (∃ c, (showDialog w).elem "dialog-container" = some c ∧ "visible" ∈ c.classList) ∧
      (∃ s, (closeDialog w).elem "dialog-scrim" = some s ∧ "visible" ∉ s.classList) ∧
      (∃ c, (closeDialog w).elem "dialog-container" = some c ∧ "visible" ∉ c.classList)) ∧
    ((w.elem "dialog-scrim").isNone ∨ (w.elem "dialog-container").isNone →
      (showDialog w).state = w.state ∧ (closeDialog w).state = w.state) := by
  refine ⟨showDialog_idem w, ?_, ?_, ?_⟩
  · rcases closeDialog_idem w with h | h
    · rw [h]
    · exact h
  · intro hs hc
    obtain ⟨s, hs0⟩ := Option.isSome_iff_exists.mp hs
    obtain ⟨c, hc0⟩ := Option.isSome_iff_exists.mp hc
    rw [showDialog_bound w hs hc, closeDialog_bound w hs hc]
    refine ⟨⟨_, by simp [hs0]; rfl, ?_⟩, ⟨_, by simp [hc0]; rfl, ?_⟩,
      ⟨_, by simp [hs0]; rfl, ?_⟩, ⟨_, by simp [hc0]; rfl, ?_⟩⟩
    · exact mem_classListAdd_single _ _
    · exact mem_classListAdd_single _ _
    · exact not_mem_classListRemove _ _ _ (by simp)
    · exact not_mem_classListRemove _ _ _ (by simp)
  · intro h
    rw [showDialog_unbound w h, closeDialog_unbound w h]
    simp

theorem dialog_idempotent_witness :
    (∃ s, (showDialog dialogPage).elem "dialog-scrim" = some s ∧ "visible" ∈ s.classList) ∧
    (∃ c, (closeDialog dialogPage).elem "dialog-container" = some c ∧
      "visible" ∉ c.classList) :=
  ⟨((dialog_idempotent dialogPage).2.2.1 (by decide) (by decide)).1,
   ((dialog_idempotent dialogPage).2.2.1 (by decide) (by decide)).2.2.2⟩

/-! ## The title rotator -/

theorem titleClasses_final (cl : List String) (st : String) (hst : st ∈ styleMarkers) :
    classListRemove ["glitch-effect"]
      (classListAdd ["glitch-effect"]
        (classListAdd [st]
          (classListRemove ["style-1", "style-2", "style-3", "glitch-flicker-out"]
            (classListRemove ["glitch-effect"] (classListAdd ["glitch-flicker-out"] cl))))) =
      cl.filter (fun c => c ∉ ["glitch-effect", "style-1", "style-2", "style-3",
        "glitch-flicker-out"]) ++ [st] := by
  have h3 : classListRemove ["style-1", "style-2", "style-3", "glitch-flicker-out"]
      (classListRemove ["glitch-effect"] (classListAdd ["glitch-flicker-out"] cl)) =
      cl.filter (fun c => c ∉ ["glitch-effect", "style-1", "style-2", "style-3",
        "glitch-flicker-out"]) := by
    rw [classListAdd_single]
    split <;> simp [classListRemove, List.filter_filter, List.filter_append] <;>
      (apply List.filter_congr; intro x _; simp [Bool.and_comm, Bool.and_assoc])
  rw [h3]
  have hst' : st = "style-1" ∨ st = "style-2" ∨ st = "style-3" := by
    simpa [styleMarkers] using hst
  have h4 : st ∉ cl.filter (fun c => c ∉ ["glitch-effect", "style-1", "style-2", "style-3",
      "glitch-flicker-out"]) := by
    rcases hst' with h | h | h <;> subst h <;> simp
  have h5 : "glitch-effect" ∉ cl.filter (fun c => c ∉ ["glitch-effect", "style-1", "style-2",
      "style-3", "glitch-flicker-out"]) ++ [st] := by
    rcases hst' with h | h | h <;> subst h <;> simp
  rw [classListAdd_single st, if_neg h4, classListAdd_single "glitch-effect", if_neg h5]
  have h6 : st ≠ "glitch-effect" := by
    rcases hst' with h | h | h <;> subst h <;> decide
  simp only [classListRemove, List.filter_append, List.filter_filter]
  simp [h6]

theorem style_of_title (i : Nat) (t : Title) (h : titles[i]? = some t) :
    t.style ∈ styleMarkers := by
  have : i < 4 ∨ 4 ≤ i := Nat.lt_or_ge i 4
  rcases this with h4 | h4
  · interval_cases i <;> simp [titles] at h <;> subst h <;> simp [styleMarkers]
  · have : titles[i]? = none := by
      apply List.getElem?_eq_none; simpa [titles] using h4
    rw [this] at h; cases h

theorem runTimers_add (a b : Nat) (w : World) :
    runTimers (a + b) w = runTimers b (runTimers a w) := by
  induction a generalizing w with
  | zero => simp [runTimers]
  | succ a ih =>
    rw [Nat.succ_add]
    simp only [runTimers]
    cases h : fireTimer w with
    | none => cases b <;> simp [runTimers, h]
    | some w' => simp [ih]

theorem runTimers_idle (fuel : Nat) (w : World) (h : w.timers = []) :
    runTimers fuel w = w := by
  cases fuel <;> simp [runTimers, fireTimer, earliest, h]

/-- The world reached once the three callbacks of one `updateGlitchTitle` call have fired. -/
theorem updateGlitchTitle_three (w : World) (e : Element) (t : Title)
    (he : w.elem "main-title" = some e) (ht : titles[w.currentTitleIndex]? = some t)
    (hq : w.timers = []) :
    runTimers 3 (updateGlitchTitle w) =
      { w with
        dom := modifyElem "main-title"
          (fun e =>
            { e with
              classList := classListRemove ["glitch-effect"]
                (classListAdd ["glitch-effect"]
                  (classListAdd [t.style]
                    (classListRemove ["style-1", "style-2", "style-3", "glitch-flicker-out"]
                      (classListRemove ["glitch-effect"]
                        (classListAdd ["glitch-flicker-out"] e.classList))))),
              textContent := t.text,
              attributes := setAttr "data-text" t.text e.attributes })
          w.dom,
        currentTitleIndex := (w.currentTitleIndex + 1) % titles.length,
        timers := [],
        now := w.now + 500,
        trace := w.trace ++
          [(w.now, .classAdd "main-title" ["glitch-flicker-out"]),
           (w.now, .classRemove "main-title" ["glitch-effect"]),
           (w.now + 50, .classRemove "main-title"
              ["style-1", "style-2", "style-3", "glitch-flicker-out"]),
           (w.now + 50, .setTextContent "main-title" t.text),
           (w.now + 50, .setAttribute "main-title" "data-text" t.text),
           (w.now + 50, .classAdd "main-title" [t.style]),
           (w.now + 60, .classAdd "main-title" ["glitch-effect"]),
           (w.now + 500, .classRemove "main-title" ["glitch-effect"])] } := by
  unfold updateGlitchTitle
  simp only [he, ht, Option.isNone_some, Bool.false_eq_true, if_false]
  simp [runTimers, fireTimer, earliest, World.setTimeout, World.classAdd,
    World.classRemove, World.emit, World.update, hq, runCallback, swapTitle,
    World.setTextContent, World.setAttribute, modifyElem_modifyElem, Nat.add_assoc]

/-- More fuel than the three callbacks need changes nothing. -/
theorem updateGlitchTitle_fuel (w : World) (e : Element) (t : Title) (fuel : Nat)
    (he : w.elem "main-title" = some e) (ht : titles[w.currentTitleIndex]? = some t)
    (hq : w.timers = []) (hf : 3 ≤ fuel) :
    runTimers fuel (updateGlitchTitle w) = runTimers 3 (updateGlitchTitle w) := by
  obtain ⟨k, rfl⟩ := Nat.exists_eq_add_of_le hf
  rw [runTimers_add]
  apply runTimers_idle
  rw [updateGlitchTitle_three w e t he ht hq]

theorem getAttr_setAttr (name value : String) (l : List (String × String)) :
    getAttr name (setAttr name value l) = some value := by
  induction l with
  | nil => simp [getAttr, setAttr]
  | cons p rest ih =>
    obtain ⟨k, v⟩ := p
    by_cases h : k = name <;> simp [getAttr, setAttr, h, ih]

theorem styles_of_final (cl : List String) (st : String) (hst : st ∈ styleMarkers) :
    (cl.filter (fun c => c ∉ ["glitch-effect", "style-1", "style-2", "style-3",
      "glitch-flicker-out"]) ++ [st]).filter (fun c => c ∈ styleMarkers) = [st] := by
  have hst' : st = "style-1" ∨ st = "style-2" ∨ st = "style-3" := by
    simpa [styleMarkers] using hst
  rw [List.filter_append, List.filter_filter]
  have h0 : cl.filter (fun a => decide (a ∈ styleMarkers) &&
      decide (a ∉ ["glitch-effect", "style-1", "style-2", "style-3", "glitch-flicker-out"])) = [] := by
    rw [List.filter_eq_nil_iff]
    intro a _
    simp [styleMarkers]
    tauto
  rw [h0]
  simp [hst]

theorem title_at (i : Nat) (h : i < titles.length) : ∃ t, titles[i]? = some t :=
  ⟨titles[i], List.getElem?_eq_getElem h⟩

/-- The title element once one `updateGlitchTitle` call has settled. -/
theorem updateGlitchTitle_element (w : World) (e : Element) (t : Title) (fuel : Nat)
    (he : w.elem "main-title" = some e) (ht : titles[w.currentTitleIndex]? = some t)
    (hq : w.timers = []) (hf : 3 ≤ fuel) :
    ∃ e', (runTimers fuel (updateGlitchTitle w)).elem "main-title" = some e' ∧
      e'.textContent = t.text ∧ getAttr "data-text" e'.attributes = some t.text ∧
      e'.classList.filter (fun c => c ∈ styleMarkers) = [t.style] ∧
      "glitch-effect" ∉ e'.classList ∧ "glitch-flicker-out" ∉ e'.classList := by
  rw [updateGlitchTitle_fuel w e t fuel he ht hq hf, updateGlitchTitle_three w e t he ht hq]
  have hst := style_of_title _ t ht
  have hst' : t.style = "style-1" ∨ t.style = "style-2" ∨ t.style = "style-3" := by
    simpa [styleMarkers] using hst
  have he' : getElementById "main-title" w.dom = some e := he
  refine ⟨_, by
      show getElementById "main-title" (modifyElem "main-title" _ w.dom) = _
      rw [getElementById_modifyElem, if_pos rfl, he']; rfl,
    rfl, getAttr_setAttr _ _ _, ?_, ?_, ?_⟩
  · simp only [titleClasses_final _ _ hst]
    exact styles_of_final _ _ hst
  · simp only [titleClasses_final _ _ hst]
    rcases hst' with h | h | h <;> rw [h] <;> simp
  · simp only [titleClasses_final _ _ hst]
    rcases hst' with h | h | h <;> rw [h] <;> simp

/-- C10: one `updateGlitchTitle` call on a page with the title element and no
other timer pending produces exactly the effects: at the call time the
flicker marker added and the glitch marker removed; 50ms later the three style
markers and the flicker marker removed, text and `data-text` set to the text of
`titles[currentTitleIndex]` and its style marker added; 60ms after the call the
glitch marker added; 500ms after the call the glitch marker removed.  Three timer
tasks suffice, none stays pending, and the element ends with exactly one
style marker and neither transient marker. -/
theorem updateGlitchTitle_timeline (w : World) (e : Element) (t : Title) (fuel : Nat)
    (he : w.elem "main-title" = some e) (ht : titles[w.currentTitleIndex]? = some t)
    (hq : w.timers = []) (hf : 3 ≤ fuel) :
    (runTimers fuel (updateGlitchTitle w)).trace = w.trace ++
      [(w.now, .classAdd "main-title" ["glitch-flicker-out"]),
       (w.now, .classRemove "main-title" ["glitch-effect"]),
       (w.now + 50, .classRemove "main-title"
          ["style-1", "style-2", "style-3", "glitch-flicker-out"]),
       (w.now + 50, .setTextContent "main-title" t.text),
       (w.now + 50, .setAttribute "main-title" "data-text" t.text),
       (w.now + 50, .classAdd "main-title" [t.style]),
       (w.now + 60, .classAdd "main-title" ["glitch-effect"]),
       (w.now + 500, .classRemove "main-title" ["glitch-effect"])] ∧
    (runTimers fuel (updateGlitchTitle w)).timers = [] ∧
    ∃ e', (runTimers fuel (updateGlitchTitle w)).elem "main-title" = some e' ∧
      e'.textContent = t.text ∧ getAttr "data-text" e'.attributes = some t.text ∧
      e'.classList.filter (fun c => c ∈ styleMarkers) = [t.style] ∧
      "glitch-effect" ∉ e'.classList ∧ "glitch-flicker-out" ∉ e'.classList := by
  refine ⟨?_, ?_, updateGlitchTitle_element w e t fuel he ht hq hf⟩
  · rw [updateGlitchTitle_fuel w e t fuel he ht hq hf, updateGlitchTitle_three w e t he ht hq]
  · rw [updateGlitchTitle_fuel w e t fuel he ht hq hf, updateGlitchTitle_three w e t he ht hq]

theorem updateGlitchTitle_timeline_witness :
    (runTimers 3 (updateGlitchTitle titlePage)).trace =
      [(0, .classAdd "main-title" ["glitch-flicker-out"]),
       (0, .classRemove "main-title" ["glitch-effect"]),
       (50, .classRemove "main-title"
          ["style-1", "style-2", "style-3", "glitch-flicker-out"]),
       (50, .setTextContent "main-title" "Wuthering Waves Config File Setup Toolkit"),
       (50, .setAttribute "main-title" "data-text" "Wuthering Waves Config File Setup Toolkit"),
       (50, .classAdd "main-title" ["style-1"]),
       (60, .classAdd "main-title" ["glitch-effect"]),
       (500, .classRemove "main-title" ["glitch-effect"])] :=
  (updateGlitchTitle_timeline titlePage { classList := ["hero", "style-2", "glitch-effect"] }
    ⟨"Wuthering Waves Config File Setup Toolkit", "style-1"⟩ 3 (by decide) (by decide)
    (by decide) (by decide)).1

/-- After any number of settled rotations the title is still bound, nothing is
pending and the cursor has advanced by that number modulo the list length. -/
theorem rotate_invariant (w : World) (e : Element) (fuel : Nat)
    (he : w.elem "main-title" = some e) (hq : w.timers = [])
    (hc : w.currentTitleIndex < titles.length) (hf : 3 ≤ fuel) (n : Nat) :
    (∃ e', (rotate fuel n w).elem "main-title" = some e') ∧
    (rotate fuel n w).timers = [] ∧
    (rotate fuel n w).currentTitleIndex = (w.currentTitleIndex + n) % titles.length := by
  induction n with
  | zero => exact ⟨⟨e, he⟩, hq, by simp [rotate, Nat.mod_eq_of_lt hc]⟩
  | succ n ih =>
    obtain ⟨⟨e', he'⟩, hq', hc'⟩ := ih
    obtain ⟨t, ht⟩ := title_at (rotate fuel n w).currentTitleIndex
      (by rw [hc']; exact Nat.mod_lt _ (by decide))
    have he'' : getElementById "main-title" (rotate fuel n w).dom = some e' := he'
    simp only [rotate]
    rw [updateGlitchTitle_fuel _ e' t fuel he' ht hq' hf, updateGlitchTitle_three _ e' t he' ht hq']
    refine ⟨⟨_, by
        show getElementById "main-title" (modifyElem "main-title" _ (rotate fuel n w).dom) = _
        rw [getElementById_modifyElem, if_pos rfl, he'']; rfl⟩, rfl, ?_⟩
    show ((rotate fuel n w).currentTitleIndex + 1) % titles.length = _
    rw [hc']
    simp [Nat.add_assoc]

/-- C1 (amended): after `n ≥ 1` settled calls from cursor `c < 4` the title
shows `titles[(c + n - 1) mod 4]`: its text is displayed and its style marker
is the only style marker on the element; the cursor itself is `(c + n) mod 4`. -/
theorem rotate_displays (w : World) (e : Element) (fuel n : Nat)
    (he : w.elem "main-title" = some e) (hq : w.timers = [])
    (hc : w.currentTitleIndex < titles.length) (hf : 3 ≤ fuel) (hn : 1 ≤ n) :
    ∃ e' t, (rotate fuel n w).elem "main-title" = some e' ∧
      titles[(w.currentTitleIndex + n - 1) % titles.length]? = some t ∧
      e'.textContent = t.text ∧
      e'.classList.filter (fun c => c ∈ styleMarkers) = [t.style] ∧
      (rotate fuel n w).currentTitleIndex = (w.currentTitleIndex + n) % titles.length := by
  obtain ⟨m, rfl⟩ : ∃ m, n = m + 1 := ⟨n - 1, by omega⟩
  obtain ⟨⟨e0, he0⟩, hq0, hc0⟩ := rotate_invariant w e fuel he hq hc hf m
  obtain ⟨t, ht⟩ := title_at (rotate fuel m w).currentTitleIndex
    (by rw [hc0]; exact Nat.mod_lt _ (by decide))
  obtain ⟨e', he', htext, _, hstyle, _, _⟩ :=
    updateGlitchTitle_element (rotate fuel m w) e0 t fuel he0 ht hq0 hf
  refine ⟨e', t, he', ?_, htext, hstyle, (rotate_invariant w e fuel he hq hc hf (m + 1)).2.2⟩
  rw [← ht, hc0]
  rfl

theorem rotate_displays_witness :
    ∃ e' t, (rotate 3 6 titlePage).elem "main-title" = some e' ∧
      titles[(titlePage.currentTitleIndex + 6 - 1) % titles.length]? = some t ∧
      e'.textContent = t.text ∧
      e'.classList.filter (fun c => c ∈ styleMarkers) = [t.style] ∧
      (rotate 3 6 titlePage).currentTitleIndex =
        (titlePage.currentTitleIndex + 6) % titles.length :=
  rotate_displays titlePage { classList := ["hero", "style-2", "glitch-effect"] } 3 6
    (by decide) (by decide) (by decide) (by decide) (by decide)

/-- C1 as stated fails: from cursor 0, one settled call displays `titles[0]`
with `style-1`, not `titles[(0 + 1) mod 4]` with `style-2`. -/
theorem rotate_displays_counterexample :
    titlePage.currentTitleIndex = 0 ∧
    ((rotate 3 1 titlePage).elem "main-title").map (fun e => e.textContent) =
      some "Wuthering Waves Config File Setup Toolkit" ∧
    (titles[(titlePage.currentTitleIndex + 1) % 4]?).map (fun t => t.text) =
      some "Resonator Settings Optimization Interface" ∧
    ((rotate 3 1 titlePage).elem "main-title").map (fun e => e.textContent) ≠
      (titles[(titlePage.currentTitleIndex + 1) % 4]?).map (fun t => t.text) ∧
    ((rotate 3 1 titlePage).elem "main-title").map
        (fun e => e.classList.filter (fun c => c ∈ styleMarkers)) = some ["style-1"] ∧
    (titles[(titlePage.currentTitleIndex + 1) % 4]?).map (fun t => t.style) = some "style-2" := by
  decide

theorem cursor_updateGlitchTitle (w : World) :
    (updateGlitchTitle w).currentTitleIndex =
      if (w.elem "main-title").isSome then (w.currentTitleIndex + 1) % titles.length
      else w.currentTitleIndex := by
  unfold updateGlitchTitle
  cases h : w.elem "main-title" <;> simp [World.setTimeout, World.classRemove, World.classAdd,
    World.emit, World.update]

theorem cursor_lt_updateGlitchTitle (w : World) (h : w.currentTitleIndex < titles.length) :
    (updateGlitchTitle w).currentTitleIndex < titles.length := by
  rw [cursor_updateGlitchTitle]
  split
  · exact Nat.mod_lt _ (by decide)
  · exact h

theorem cursor_lt_runCallback (cb : Callback) (w : World)
    (h : w.currentTitleIndex < titles.length) :
    (runCallback cb w).currentTitleIndex < titles.length := by
  cases cb with
  | swapTitle nextTitle =>
    cases nextTitle <;> simpa [runCallback, swapTitle, World.setTimeout, World.classRemove,
      World.classAdd, World.setTextContent, World.setAttribute, World.emit, World.update] using h
  | glitchOn => simpa [runCallback, World.classAdd, World.emit, World.update] using h
  | glitchOff => simpa [runCallback, World.classRemove, World.emit, World.update] using h
  | updateGlitchTitle => exact cursor_lt_updateGlitchTitle w h

theorem cursor_lt_runTimers (fuel : Nat) (w : World)
    (h : w.currentTitleIndex < titles.length) :
    (runTimers fuel w).currentTitleIndex < titles.length := by
  induction fuel generalizing w with
  | zero => exact h
  | succ fuel ih =>
    simp only [runTimers]
    cases hf : fireTimer w with
    | none => exact h
    | some w' =>
      apply ih
      unfold fireTimer at hf
      cases he : earliest w.timers with
      | none => simp [he] at hf
      | some t =>
        simp only [he, Option.some.injEq] at hf
        rw [← hf]
        apply cursor_lt_runCallback
        cases t.period <;> exact h

/-- C8: the cursor is in range when the script has loaded and stays in range
across every `updateGlitchTitle` call (also those made from the timer queue),
bound or not; a call with the title bound replaces `c` by `(c + 1) mod 4`, a
call with the title unbound leaves it alone. -/
theorem cursor_in_range (dom : List (String × Element)) (bodyOverflow : String)
    (uiCards : List (Option Nat)) (hasLucide : Bool) (clipboard : Option Settled)
    (playOutcome : Settled) (w : World) (fuel : Nat)
    (h : w.currentTitleIndex < titles.length) :
    (loaded dom bodyOverflow uiCards hasLucide clipboard playOutcome).currentTitleIndex
      < titles.length ∧
    (updateGlitchTitle w).currentTitleIndex < titles.length ∧
    (runTimers fuel w).currentTitleIndex < titles.length ∧
    ((w.elem "main-title").isSome →
      (updateGlitchTitle w).currentTitleIndex = (w.currentTitleIndex + 1) % titles.length) ∧
    ((w.elem "main-title").isNone →
      (updateGlitchTitle w).currentTitleIndex = w.currentTitleIndex) := by
  refine ⟨by show 0 < titles.length; decide, cursor_lt_updateGlitchTitle w h,
    cursor_lt_runTimers fuel w h, ?_, ?_⟩
  · intro hb; rw [cursor_updateGlitchTitle, if_pos hb]
  · intro hb
    rw [cursor_updateGlitchTitle, if_neg]
    simpa using hb

theorem cursor_in_range_witness :
    (updateGlitchTitle { titlePage with currentTitleIndex := 3 }).currentTitleIndex = 0 ∧
    (updateGlitchTitle { dialogPage with currentTitleIndex := 3 }).currentTitleIndex = 3 :=
  ⟨(cursor_in_range [] "" [] true none .fulfilled { titlePage with currentTitleIndex := 3 } 0
      (by decide)).2.2.2.1 (by decide),
   (cursor_in_range [] "" [] true none .fulfilled { dialogPage with currentTitleIndex := 3 } 0
      (by decide)).2.2.2.2 (by decide)⟩

/-! ## The zoom modal -/

@[simp] theorem elem_setSrc (id id' value : String) (w : World) :
    (w.setSrc id' value).elem id =
      if id = id' then (w.elem id).map (fun e => { e with src := value }) else w.elem id := by
  simp [World.setSrc]

@[simp] theorem elem_setTextContent (id id' text : String) (w : World) :
    (w.setTextContent id' text).elem id =
      if id = id' then (w.elem id).map (fun e => { e with textContent := text })
      else w.elem id := by
  simp [World.setTextContent]

@[simp] theorem elem_setInnerHTML (id id' html : String) (w : World) :
    (w.setInnerHTML id' html).elem id =
      if id = id' then (w.elem id).map (fun e => { e with innerHTML := html })
      else w.elem id := by
  simp [World.setInnerHTML]

@[simp] theorem elem_setBodyOverflow (id value : String) (w : World) :
    (w.setBodyOverflow value).elem id = w.elem id := rfl

theorem openZoom_bound (src title : String) (w : World) (hm : (w.elem "zoom-modal").isSome)
    (hi : (w.elem "zoom-image").isSome) (ht : (w.elem "zoom-title").isSome) :
    openZoom src title w =
      ⟨(((w.setSrc "zoom-image" src).setTextContent "zoom-title" title).classAdd
          "zoom-modal" ["visible"]).setBodyOverflow "hidden", none⟩ := by
  obtain ⟨c, hc⟩ := Option.isSome_iff_exists.mp ht
  unfold openZoom
  rw [if_neg (by simp [Option.isSome_iff_ne_none.mp hm, Option.isSome_iff_ne_none.mp hi])]
  simp [hc]

theorem closeZoom_bound (w : World) (hm : (w.elem "zoom-modal").isSome)
    (hi : (w.elem "zoom-image").isSome) :
    closeZoom w =
      ⟨((w.classRemove "zoom-modal" ["visible"]).setBodyOverflow "auto").setSrc
          "zoom-image" "", none⟩ := by
  obtain ⟨c, hc⟩ := Option.isSome_iff_exists.mp hi
  unfold closeZoom
  rw [if_neg (by simp [Option.isSome_iff_ne_none.mp hm])]
  simp [hc]

theorem openZoomAll_bound (calls : List (String × String)) (w : World)
    (hm : (w.elem "zoom-modal").isSome) (hi : (w.elem "zoom-image").isSome)
    (ht : (w.elem "zoom-title").isSome) :
    ((openZoomAll calls w).elem "zoom-modal").isSome ∧
    ((openZoomAll calls w).elem "zoom-image").isSome ∧
    ((openZoomAll calls w).elem "zoom-title").isSome := by
  induction calls generalizing w with
  | nil => exact ⟨hm, hi, ht⟩
  | cons c rest ih =>
    simp only [openZoomAll, List.foldl_cons]
    apply ih
    · rw [openZoom_bound _ _ w hm hi ht]; simpa using hm
    · rw [openZoom_bound _ _ w hm hi ht]; simpa using hi
    · rw [openZoom_bound _ _ w hm hi ht]; simpa using ht

/-- C5: with the three zoom elements bound, any `k ≥ 1` calls of `openZoom`
leave the modal visible and scrolling suppressed, and one `closeZoom` after
them completes normally with the image source empty, the modal not visible
and the body overflow `auto` (not `hidden`), whatever `k` and the arguments. -/
theorem zoom_open_close (calls : List (String × String)) (w : World)
    (hm : (w.elem "zoom-modal").isSome) (hi : (w.elem "zoom-image").isSome)
    (ht : (w.elem "zoom-title").isSome) (hk : 1 ≤ calls.length) :
    (openZoomAll calls w).bodyOverflow = "hidden" ∧
    (∃ m, (openZoomAll calls w).elem "zoom-modal" = some m ∧ "visible" ∈ m.classList) ∧
    (closeZoom (openZoomAll calls w)).thrown = none ∧
    (∃ img, (closeZoom (openZoomAll calls w)).world.elem "zoom-image" = some img ∧
      img.src = "") ∧
    (∃ m, (closeZoom (openZoomAll calls w)).world.elem "zoom-modal" = some m ∧
      "visible" ∉ m.classList) ∧
    (closeZoom (openZoomAll calls w)).world.bodyOverflow = "auto" ∧
    (closeZoom (openZoomAll calls w)).world.bodyOverflow ≠ "hidden" := by
  obtain ⟨hm', hi', ht'⟩ := openZoomAll_bound calls w hm hi ht
  obtain ⟨m, hm0⟩ := Option.isSome_iff_exists.mp hm'
  obtain ⟨img, hi0⟩ := Option.isSome_iff_exists.mp hi'
  have hopen : (openZoomAll calls w).bodyOverflow = "hidden" ∧
      (∃ m, (openZoomAll calls w).elem "zoom-modal" = some m ∧ "visible" ∈ m.classList) := by
    obtain ⟨init, last, rfl⟩ : ∃ init last, calls = init ++ [last] := by
      rcases List.eq_nil_or_concat' calls with h | ⟨init, last, h⟩
      · rw [h] at hk; simp at hk
      · exact ⟨init, last, h⟩
    obtain ⟨hm1, hi1, ht1⟩ := openZoomAll_bound init w hm hi ht
    obtain ⟨m1, hm2⟩ := Option.isSome_iff_exists.mp hm1
    have hstep : openZoomAll (init ++ [last]) w =
        (openZoom last.1 last.2 (openZoomAll init w)).world := by
      simp [openZoomAll, List.foldl_append]
    rw [hstep, openZoom_bound _ _ _ hm1 hi1 ht1]
    refine ⟨rfl, _, by simp [hm2]; rfl, mem_classListAdd_single _ _⟩
  rw [closeZoom_bound _ hm' hi']
  refine ⟨hopen.1, hopen.2, rfl, ⟨_, by simp [hi0]; rfl, rfl⟩,
    ⟨_, by simp [hm0]; rfl, ?_⟩, rfl, ?_⟩
  · exact not_mem_classListRemove _ _ _ (by simp)
  · show "auto" ≠ "hidden"
    decide

theorem zoom_open_close_witness :
    (closeZoom (openZoomAll [("a.png", "A"), ("b.png", "B")] zoomPage)).world.bodyOverflow
      = "auto" :=
  (zoom_open_close [("a.png", "A"), ("b.png", "B")] zoomPage (by decide) (by decide)
    (by decide) (by decide)).2.2.2.2.2.1

/-! ## The music controls -/

@[simp] theorem elem_pause (id id' : String) (w : World) :
    (w.pause id').elem id =
      if id = id' then (w.elem id).map (fun e => { e with paused := true }) else w.elem id := by
  simp [World.pause]

theorem toggleMusic_unbound (w : World)
    (h : (w.elem "background-music").isNone ∨ (w.elem "music-toggle").isNone) :
    toggleMusic w = w := by
  unfold toggleMusic
  cases ha : w.elem "background-music" with
  | none => rfl
  | some a =>
    have hb : (w.elem "music-toggle").isNone := by simpa [ha] using h
    simp [hb]

theorem toggleMusic_playing (w : World) (a b : Element)
    (ha : w.elem "background-music" = some a) (hb : w.elem "music-toggle" = some b)
    (hp : a.paused = false) :
    toggleMusic w =
      if w.hasLucide then
        (((w.pause "background-music").setInnerHTML "music-toggle" mutedIcon).emit .createIcons)
      else (w.pause "background-music").setInnerHTML "music-toggle" mutedIcon := by
  unfold toggleMusic
  simp [ha, hb, hp, mutedIcon]
  rfl

@[simp] theorem elem_enqueue (id : String) (j : Job) (w : World) :
    (w.enqueue j).elem id = w.elem id := rfl

theorem play_fulfilled (id : String) (onReject : String → Job) (w : World)
    (h : w.playOutcome = .fulfilled) :
    w.play id onReject = (w.emit (.play id)).update id (fun e => { e with paused := false }) := by
  have h' : (w.emit (.play id)).playOutcome = .fulfilled := h
  unfold World.play
  simp only [h']

theorem play_rejected (id : String) (onReject : String → Job) (w : World) (err : String)
    (h : w.playOutcome = .rejected err) :
    w.play id onReject = (w.emit (.play id)).enqueue (onReject err) := by
  have h' : (w.emit (.play id)).playOutcome = .rejected err := h
  unfold World.play
  simp only [h']

theorem elem_play (id id' : String) (onReject : String → Job) (w : World) :
    (w.play id' onReject).elem id =
      if id = id' ∧ w.playOutcome = .fulfilled then
        (w.elem id).map (fun e => { e with paused := false })
      else w.elem id := by
  cases h : w.playOutcome with
  | fulfilled => rw [play_fulfilled _ _ _ h]; simp
  | rejected err => rw [play_rejected _ _ _ _ h]; simp

theorem trace_play (id : String) (onReject : String → Job) (w : World) :
    (w.play id onReject).trace = w.trace ++ [(w.now, .play id)] := by
  cases h : w.playOutcome with
  | fulfilled => rw [play_fulfilled _ _ _ h]; rfl
  | rejected err => rw [play_rejected _ _ _ _ h]; rfl

theorem now_play (id : String) (onReject : String → Job) (w : World) :
    (w.play id onReject).now = w.now := by
  cases h : w.playOutcome with
  | fulfilled => rw [play_fulfilled _ _ _ h]; rfl
  | rejected err => rw [play_rejected _ _ _ _ h]; rfl

theorem hasLucide_play (id : String) (onReject : String → Job) (w : World) :
    (w.play id onReject).hasLucide = w.hasLucide := by
  cases h : w.playOutcome with
  | fulfilled => rw [play_fulfilled _ _ _ h]; rfl
  | rejected err => rw [play_rejected _ _ _ _ h]; rfl

theorem listeners_play (id : String) (onReject : String → Job) (w : World) :
    (w.play id onReject).listeners = w.listeners := by
  cases h : w.playOutcome with
  | fulfilled => rw [play_fulfilled _ _ _ h]; rfl
  | rejected err => rw [play_rejected _ _ _ _ h]; rfl

theorem playOutcome_play (id : String) (onReject : String → Job) (w : World) :
    (w.play id onReject).playOutcome = w.playOutcome := by
  cases h : w.playOutcome with
  | fulfilled => rw [play_fulfilled _ _ _ h]; exact h
  | rejected err => rw [play_rejected _ _ _ _ h]; exact h

theorem toggleMusic_paused (w : World) (a b : Element)
    (ha : w.elem "background-music" = some a) (hb : w.elem "music-toggle" = some b)
    (hp : a.paused = true) :
    toggleMusic w =
      if w.hasLucide then
        (((w.play "background-music" .toggleCatch).setInnerHTML "music-toggle"
          unmutedIcon).emit .createIcons)
      else (w.play "background-music" .toggleCatch).setInnerHTML "music-toggle" unmutedIcon := by
  have hl : ((w.play "background-music" .toggleCatch).setInnerHTML "music-toggle"
      unmutedIcon).hasLucide = w.hasLucide := hasLucide_play _ _ w
  unfold toggleMusic
  simp only [ha, hb, hp, Option.isNone_some, Bool.false_eq_true, if_false, Bool.not_true]
  exact if_congr (by rw [← hl]; rfl) rfl rfl

/-- C6: with the audio element and the toggle button bound and the audio
playing, `toggleMusic` pauses the audio and writes the muted glyph `volume-x`
without requesting playback; a second call right after issues one playback
request, which un-pauses the audio when accepted, and writes the unmuted glyph
`volume-2`.  On a page where either element is unbound `toggleMusic` changes
nothing. -/
theorem toggleMusic_pause_resume (w : World) (a b : Element)
    (ha : w.elem "background-music" = some a) (hb : w.elem "music-toggle" = some b)
    (hp : a.paused = false) :
    (∃ a1 b1, (toggleMusic w).elem "background-music" = some a1 ∧ a1.paused = true ∧
      (toggleMusic w).elem "music-toggle" = some b1 ∧ b1.innerHTML = mutedIcon) ∧
    (toggleMusic w).trace = w.trace ++
      (w.now, .pause "background-music") :: (w.now, .setInnerHTML "music-toggle" mutedIcon) ::
        (if w.hasLucide then [(w.now, .createIcons)] else []) ∧
    (toggleMusic (toggleMusic w)).trace = (toggleMusic w).trace ++
      (w.now, .play "background-music") :: (w.now, .setInnerHTML "music-toggle" unmutedIcon) ::
        (if w.hasLucide then [(w.now, .createIcons)] else []) ∧
    playRequests (toggleMusic (toggleMusic w)).trace = playRequests w.trace + 1 ∧
    (∃ b2, (toggleMusic (toggleMusic w)).elem "music-toggle" = some b2 ∧
      b2.innerHTML = unmutedIcon) ∧
    (w.playOutcome = .fulfilled →
      ∃ a2, (toggleMusic (toggleMusic w)).elem "background-music" = some a2 ∧
        a2.paused = false) ∧
    (∀ v : World, (v.elem "background-music").isNone ∨ (v.elem "music-toggle").isNone →
      toggleMusic v = v) := by
  have h1 := toggleMusic_playing w a b ha hb hp
  have ha1 : (toggleMusic w).elem "background-music" = some { a with paused := true } := by
    rw [h1]; split <;> simp [ha]
  have hb1 : (toggleMusic w).elem "music-toggle" = some { b with innerHTML := mutedIcon } := by
    rw [h1]; split <;> simp [hb]
  have h2 := toggleMusic_paused (toggleMusic w) _ _ ha1 hb1 rfl
  have hl1 : (toggleMusic w).hasLucide = w.hasLucide := by
    rw [h1]; split <;> rfl
  have hn1 : (toggleMusic w).now = w.now := by
    rw [h1]; split <;> rfl
  have ho1 : (toggleMusic w).playOutcome = w.playOutcome := by
    rw [h1]; split <;> rfl
  have ht1 : (toggleMusic w).trace = w.trace ++
      (w.now, .pause "background-music") :: (w.now, .setInnerHTML "music-toggle" mutedIcon) ::
        (if w.hasLucide then [(w.now, .createIcons)] else []) := by
    rw [h1]
    split <;> simp [World.pause, World.setInnerHTML, World.emit, World.update]
  have ht2 : (toggleMusic (toggleMusic w)).trace = (toggleMusic w).trace ++
      (w.now, .play "background-music") :: (w.now, .setInnerHTML "music-toggle" unmutedIcon) ::
        (if w.hasLucide then [(w.now, .createIcons)] else []) := by
    rw [h2, hl1]
    split <;> simp [World.setInnerHTML, World.emit, World.update, trace_play, now_play, hn1]
  refine ⟨⟨_, _, ha1, rfl, hb1, rfl⟩, ht1, ht2, ?_, ?_, ?_, fun v hv => toggleMusic_unbound v hv⟩
  · rw [ht2, ht1]
    cases w.hasLucide <;> simp [playRequests, List.countP_append, List.countP_cons]
  · refine ⟨{ b with innerHTML := unmutedIcon }, ?_, rfl⟩
    rw [h2, hl1]
    split <;> simp [elem_play, hb1]
  · intro hacc
    refine ⟨{ a with paused := false }, ?_, rfl⟩
    rw [h2, hl1]
    split <;> simp [elem_play, ha1, ho1, hacc]

theorem toggleMusic_pause_resume_witness :
    playRequests (toggleMusic (toggleMusic musicPage)).trace = playRequests musicPage.trace + 1 ∧
    toggleMusic zoomPage = zoomPage :=
  ⟨(toggleMusic_pause_resume musicPage { paused := false } {} (by decide) (by decide)
      (by decide)).2.2.2.1,
   (toggleMusic_pause_resume musicPage { paused := false } {} (by decide) (by decide)
      (by decide)).2.2.2.2.2.2 zoomPage (by decide)⟩

/-! ## First-interaction autoplay -/

theorem firstInteraction_plays (w : World)
    (h : (w.elem "background-music").any (fun a => a.paused) = true) :
    playMusicOnFirstInteraction w =
      ((w.play "background-music" .firstInteractionCatch).removeEventListener "document"
        "click" .playMusicOnFirstInteraction).removeEventListener "document" "keydown"
        .playMusicOnFirstInteraction := by
  unfold playMusicOnFirstInteraction
  cases ha : w.elem "background-music" with
  | none => simp [ha] at h
  | some a =>
    have hp : a.paused = true := by simpa [ha] using h
    simp [hp]

theorem firstInteraction_skips (w : World)
    (h : (w.elem "background-music").any (fun a => a.paused) = false) :
    playMusicOnFirstInteraction w =
      (w.removeEventListener "document" "click"
        .playMusicOnFirstInteraction).removeEventListener "document" "keydown"
        .playMusicOnFirstInteraction := by
  unfold playMusicOnFirstInteraction
  cases ha : w.elem "background-music" with
  | none => rfl
  | some a =>
    have hp : a.paused = false := by simpa [ha] using h
    simp [hp]

@[simp] theorem elem_removeEventListener (id target type : String) (handler : Handler)
    (w : World) : (w.removeEventListener target type handler).elem id = w.elem id := rfl

theorem firstInteraction_trace (w : World) :
    (playMusicOnFirstInteraction w).trace = w.trace ++
      (if (w.elem "background-music").any (fun a => a.paused) then
        [(w.now, .play "background-music")] else []) := by
  cases h : (w.elem "background-music").any (fun a => a.paused)
  · rw [firstInteraction_skips w h]; simp [World.removeEventListener]
  · rw [firstInteraction_plays w h]; simp [World.removeEventListener, trace_play]

theorem firstInteraction_listeners (w : World) :
    (playMusicOnFirstInteraction w).listeners =
      (w.listeners.filter (fun l => l ≠ clickListener)).filter (fun l => l ≠ keydownListener) := by
  cases h : (w.elem "background-music").any (fun a => a.paused)
  · rw [firstInteraction_skips w h]; rfl
  · rw [firstInteraction_plays w h]
    simp only [World.removeEventListener, listeners_play]
    rfl

theorem firstInteraction_now (w : World) : (playMusicOnFirstInteraction w).now = w.now := by
  cases h : (w.elem "background-music").any (fun a => a.paused)
  · rw [firstInteraction_skips w h]; rfl
  · rw [firstInteraction_plays w h]
    simp only [World.removeEventListener, now_play]

/-- Whether the audio is still paused after the first invocation: only an
accepted request changes the element. -/
theorem firstInteraction_paused (w : World) :
    ((playMusicOnFirstInteraction w).elem "background-music").any (fun a => a.paused) =
      ((w.elem "background-music").any (fun a => a.paused) &&
        decide (w.playOutcome ≠ .fulfilled)) := by
  cases h : (w.elem "background-music").any (fun a => a.paused)
  · rw [firstInteraction_skips w h]; simpa using h
  · rw [firstInteraction_plays w h]
    simp only [elem_removeEventListener, elem_play]
    cases ho : w.playOutcome with
    | fulfilled =>
      cases ha : w.elem "background-music" <;> simp
    | rejected err => simpa using h

/-- The number of playback requests two consecutive direct invocations add. -/
theorem firstInteraction_twice (w : World) :
    playRequests (playMusicOnFirstInteraction (playMusicOnFirstInteraction w)).trace =
      playRequests w.trace +
        (if (w.elem "background-music").any (fun a => a.paused) then
          (if w.playOutcome = .fulfilled then 1 else 2) else 0) := by
  rw [firstInteraction_trace, firstInteraction_paused, firstInteraction_trace]
  cases h : (w.elem "background-music").any (fun a => a.paused) <;>
    cases ho : w.playOutcome <;>
    simp [playRequests, List.countP_append, List.countP_cons]

theorem firstInteraction_calls (fn : String) (w : World) :
    callsTo fn (playMusicOnFirstInteraction w).trace = callsTo fn w.trace := by
  rw [firstInteraction_trace]
  split <;> simp [callsTo, List.countP_append, List.countP_cons]

theorem showDialog_quiet (w : World) :
    (showDialog w).listeners = w.listeners ∧ (showDialog w).pending = w.pending ∧
    callsTo "playMusicOnFirstInteraction" (showDialog w).trace =
      callsTo "playMusicOnFirstInteraction" w.trace := by
  by_cases h : (w.elem "dialog-scrim").isSome ∧ (w.elem "dialog-container").isSome
  · rw [showDialog_bound w h.1 h.2]
    refine ⟨rfl, rfl, ?_⟩
    simp [World.classAdd, World.emit, World.update, callsTo, List.countP_append,
      List.countP_cons]
  · have h' : (w.elem "dialog-scrim").isNone ∨ (w.elem "dialog-container").isNone := by
      by_cases hs : (w.elem "dialog-scrim").isSome
      · exact Or.inr (by simpa using fun hc => h ⟨hs, hc⟩)
      · exact Or.inl (by simpa using hs)
    rw [showDialog_unbound w h']
    refine ⟨rfl, rfl, ?_⟩
    simp [World.emit, callsTo, List.countP_append, List.countP_cons]

theorem runJob_quiet (j : Job) (w : World) :
    (runJob j w).listeners = w.listeners ∧ (runJob j w).pending = w.pending ∧
    callsTo "playMusicOnFirstInteraction" (runJob j w).trace =
      callsTo "playMusicOnFirstInteraction" w.trace := by
  cases j with
  | copyThen => exact showDialog_quiet w
  | copyCatch err =>
    exact ⟨rfl, rfl, by simp [runJob, World.emit, callsTo, List.countP_append,
      List.countP_cons]⟩
  | toggleCatch err =>
    exact ⟨rfl, rfl, by simp [runJob, World.emit, callsTo, List.countP_append,
      List.countP_cons]⟩
  | firstInteractionCatch err => exact ⟨rfl, rfl, rfl⟩

theorem jobs_quiet (jobs : List Job) (w : World) :
    (jobs.foldl (fun acc j => runJob j acc) w).listeners = w.listeners ∧
    (jobs.foldl (fun acc j => runJob j acc) w).pending = w.pending ∧
    callsTo "playMusicOnFirstInteraction" (jobs.foldl (fun acc j => runJob j acc) w).trace =
      callsTo "playMusicOnFirstInteraction" w.trace := by
  induction jobs generalizing w with
  | nil => exact ⟨rfl, rfl, rfl⟩
  | cons j rest ih =>
    obtain ⟨a, b, c⟩ := ih (runJob j w)
    obtain ⟨a', b', c'⟩ := runJob_quiet j w
    exact ⟨a.trans a', b.trans b', c.trans c'⟩

/-- Running the promise reactions empties the queue and touches neither the
listeners nor the record of `playMusicOnFirstInteraction` invocations. -/
theorem settle_quiet (w : World) :
    (settle w).listeners = w.listeners ∧ (settle w).pending = [] ∧
    callsTo "playMusicOnFirstInteraction" (settle w).trace =
      callsTo "playMusicOnFirstInteraction" w.trace := by
  obtain ⟨a, b, c⟩ := jobs_quiet w.pending { w with pending := [] }
  exact ⟨a, b, c⟩

theorem toggleMusic_quiet (w : World) :
    (toggleMusic w).listeners = w.listeners ∧
    callsTo "playMusicOnFirstInteraction" (toggleMusic w).trace =
      callsTo "playMusicOnFirstInteraction" w.trace := by
  cases ha : w.elem "background-music" with
  | none => rw [toggleMusic_unbound w (Or.inl (by simp [ha]))]; exact ⟨rfl, rfl⟩
  | some a =>
    cases hb : w.elem "music-toggle" with
    | none => rw [toggleMusic_unbound w (Or.inr (by simp [hb]))]; exact ⟨rfl, rfl⟩
    | some b =>
      cases hp : a.paused
      · rw [toggleMusic_playing w a b ha hb hp]
        split <;> refine ⟨rfl, ?_⟩ <;>
          simp [World.pause, World.setInnerHTML, World.emit, World.update, callsTo,
            List.countP_append, List.countP_cons]
      · rw [toggleMusic_paused w a b ha hb hp]
        split
        · refine ⟨listeners_play _ _ w, ?_⟩
          simp [World.setInnerHTML, World.emit, World.update, trace_play, callsTo,
            List.countP_append, List.countP_cons]
        · refine ⟨listeners_play _ _ w, ?_⟩
          simp [World.setInnerHTML, World.emit, World.update, trace_play, callsTo,
            List.countP_append, List.countP_cons]

theorem runHandler_toggleMusic (w : World) :
    (runHandler .toggleMusic w).listeners = w.listeners ∧
    callsTo "playMusicOnFirstInteraction" (runHandler .toggleMusic w).trace =
      callsTo "playMusicOnFirstInteraction" w.trace := by
  obtain ⟨a, _, c⟩ := settle_quiet (toggleMusic (w.emit (.call "toggleMusic")))
  obtain ⟨a', c'⟩ := toggleMusic_quiet (w.emit (.call "toggleMusic"))
  refine ⟨a.trans a', (c.trans c').trans ?_⟩
  simp [World.emit, callsTo, List.countP_append, List.countP_cons]

theorem runHandler_firstInteraction (w : World) :
    (runHandler .playMusicOnFirstInteraction w).listeners =
      (w.listeners.filter (fun l => l ≠ clickListener)).filter (fun l => l ≠ keydownListener) ∧
    callsTo "playMusicOnFirstInteraction" (runHandler .playMusicOnFirstInteraction w).trace =
      callsTo "playMusicOnFirstInteraction" w.trace + 1 := by
  obtain ⟨a, _, c⟩ := settle_quiet
    (playMusicOnFirstInteraction (w.emit (.call "playMusicOnFirstInteraction")))
  refine ⟨a.trans (firstInteraction_listeners _), (c.trans (firstInteraction_calls _ _)).trans ?_⟩
  simp [World.emit, callsTo, List.countP_append, List.countP_cons]

/-- Invoking one listener, if it is still registered, keeps the page armed or spent. -/
theorem invoke_armedOrSpent (l : Listener) (w : World) (h : ArmedOrSpent w) :
    ArmedOrSpent (if l ∈ w.listeners then runHandler l.handler w else w) := by
  by_cases hl : l ∈ w.listeners
  · rw [if_pos hl]
    cases hh : l.handler with
    | toggleMusic =>
      obtain ⟨a, c⟩ := runHandler_toggleMusic w
      unfold ArmedOrSpent firstInteractionListeners at h ⊢
      rw [a, c]
      exact h
    | playMusicOnFirstInteraction =>
      obtain ⟨a, c⟩ := runHandler_firstInteraction w
      have hmem : l ∈ firstInteractionListeners w :=
        List.mem_filter.mpr ⟨hl, by simp [hh]⟩
      rcases h with ⟨h1, h2⟩ | ⟨h1, _⟩
      · right
        constructor
        · unfold firstInteractionListeners
          rw [a, List.filter_eq_nil_iff]
          intro x hx hp
          simp only [List.mem_filter] at hx
          have hx' : x ∈ firstInteractionListeners w :=
            List.mem_filter.mpr ⟨hx.1.1, hp⟩
          rw [h1] at hx'
          simp only [List.mem_cons, List.mem_singleton, List.not_mem_nil, or_false] at hx'
          rcases hx' with e | e
          · simpa [e] using hx.1.2
          · simpa [e] using hx.2
        · rw [c, h2]
      · rw [h1] at hmem
        simp at hmem
  · rw [if_neg hl]
    exact h

theorem dispatchAt_armedOrSpent (target type : String) (w : World) (h : ArmedOrSpent w) :
    ArmedOrSpent (dispatchAt target type w) := by
  unfold dispatchAt
  generalize w.listeners.filter (fun l => l.target = target && l.type = type) = ls
  induction ls generalizing w with
  | nil => exact h
  | cons l rest ih => exact ih _ (invoke_armedOrSpent l w h)

theorem dispatch_armedOrSpent (ev : DomEvent) (w : World) (h : ArmedOrSpent w) :
    ArmedOrSpent (dispatch ev w) := by
  unfold dispatch
  generalize ev.path ++ ["document"] = targets
  induction targets generalizing w with
  | nil => exact h
  | cons t rest ih => exact ih _ (dispatchAt_armedOrSpent t ev.type w h)

theorem dispatchAll_armedOrSpent (events : List DomEvent) (w : World) (h : ArmedOrSpent w) :
    ArmedOrSpent (dispatchAll events w) := by
  unfold dispatchAll
  induction events generalizing w with
  | nil => exact h
  | cons ev rest ih => exact ih _ (dispatch_armedOrSpent ev w h)

theorem cards_quiet (l : List Nat) (w : World) :
    (l.foldl (fun acc index =>
        { acc with uiCards := acc.uiCards.set index (some (index + 1)) }.emit
          (.setCardProperty index "--i" (index + 1))) w).listeners = w.listeners ∧
    callsTo "playMusicOnFirstInteraction" (l.foldl (fun acc index =>
        { acc with uiCards := acc.uiCards.set index (some (index + 1)) }.emit
          (.setCardProperty index "--i" (index + 1))) w).trace =
      callsTo "playMusicOnFirstInteraction" w.trace := by
  induction l generalizing w with
  | nil => exact ⟨rfl, rfl⟩
  | cons i rest ih =>
    simp only [List.foldl_cons]
    obtain ⟨h1, h3⟩ := ih ({ w with uiCards := w.uiCards.set i (some (i + 1)) }.emit
      (.setCardProperty i "--i" (i + 1)))
    refine ⟨h1, ?_⟩
    rw [h3]
    simp [callsTo, World.emit, List.countP_append, List.countP_cons]

theorem updateGlitchTitle_quiet (w : World) :
    (updateGlitchTitle w).listeners = w.listeners ∧
    callsTo "playMusicOnFirstInteraction" (updateGlitchTitle w).trace =
      callsTo "playMusicOnFirstInteraction" w.trace := by
  unfold updateGlitchTitle
  cases h : w.elem "main-title" <;>
    simp [World.setTimeout, World.classRemove, World.classAdd, World.emit, World.update,
      callsTo, List.countP_append, List.countP_cons]

/-- After the `DOMContentLoaded` handler the page is armed: `playMusicOnFirstInteraction`
is registered exactly by lines 213-214 and has not been invoked. -/
theorem init_armed (dom : List (String × Element)) (bodyOverflow : String)
    (uiCards : List (Option Nat)) (hasLucide : Bool) (clipboard : Option Settled)
    (playOutcome : Settled) :
    firstInteractionListeners
        (init (loaded dom bodyOverflow uiCards hasLucide clipboard playOutcome)) =
      [clickListener, keydownListener] ∧
    callsTo "playMusicOnFirstInteraction"
      (init (loaded dom bodyOverflow uiCards hasLucide clipboard playOutcome)).trace = 0 := by
  generalize hw0 : loaded dom bodyOverflow uiCards hasLucide clipboard playOutcome = w0
  have h0 : w0.listeners = [] ∧ callsTo "playMusicOnFirstInteraction" w0.trace = 0 := by
    rw [← hw0]; exact ⟨rfl, rfl⟩
  generalize hw1 : (if w0.hasLucide then w0.emit .createIcons else w0) = w1
  have h1 : w1.listeners = [] ∧ callsTo "playMusicOnFirstInteraction" w1.trace = 0 := by
    rw [← hw1]
    split
    · refine ⟨h0.1, ?_⟩
      simp [World.emit, callsTo, List.countP_append, List.countP_cons]
      simpa [callsTo] using h0.2
    · exact h0
  generalize hw2 : setCardIndices w1 = w2
  have h2 : w2.listeners = [] ∧ callsTo "playMusicOnFirstInteraction" w2.trace = 0 := by
    rw [← hw2]
    obtain ⟨a, c⟩ := cards_quiet (List.range w1.uiCards.length) w1
    exact ⟨a.trans h1.1, c.trans h1.2⟩
  generalize hw3 : (if (w2.elem "main-title").isSome then
      (updateGlitchTitle w2).setInterval .updateGlitchTitle 8000 else w2) = w3
  have h3 : w3.listeners = [] ∧ callsTo "playMusicOnFirstInteraction" w3.trace = 0 := by
    rw [← hw3]
    split
    · obtain ⟨a, c⟩ := updateGlitchTitle_quiet w2
      exact ⟨a.trans h2.1, c.trans h2.2⟩
    · exact h2
  have hinit : init w0 =
      ((if (w3.elem "music-toggle").isSome then
          w3.addEventListener "music-toggle" "click" .toggleMusic else w3).addEventListener
        "document" "click" .playMusicOnFirstInteraction).addEventListener
        "document" "keydown" .playMusicOnFirstInteraction := by
    rw [← hw3, ← hw2, ← hw1]; rfl
  rw [hinit]
  obtain ⟨a, c⟩ := h3
  unfold firstInteractionListeners
  split <;> simp [World.addEventListener, a, c, clickListener, keydownListener]

/-- A click on the toggle button runs `toggleMusic` and then, bubbling, the
document listener: on a page with the audio paused and `play()` rejected both
request playback, and the document registrations are gone afterwards. -/
theorem toggle_click_bubbles :
    playRequests (dispatch ⟨"click", ["music-toggle"]⟩ silentPage).trace = 2 ∧
    callsTo "toggleMusic" (dispatch ⟨"click", ["music-toggle"]⟩ silentPage).trace = 1 ∧
    callsTo "playMusicOnFirstInteraction"
      (dispatch ⟨"click", ["music-toggle"]⟩ silentPage).trace = 1 ∧
    firstInteractionListeners (dispatch ⟨"click", ["music-toggle"]⟩ silentPage) = [] := by
  decide

/-- C7 (amended): after one invocation of `playMusicOnFirstInteraction` neither
its `click` nor its `keydown` registration remains on the document, for every
audio state and request outcome, and one invocation issues at most one playback
request.  Two consecutive direct invocations add no playback request when the
audio is absent or playing, one when the first request is accepted, and two
when it is rejected and the element stays paused.  Over any sequence of user
events on an initialised page, each bubbling from its target to the document,
the function is invoked at most once. -/
theorem firstInteraction_once (w : World) (dom : List (String × Element))
    (bodyOverflow : String) (uiCards : List (Option Nat)) (hasLucide : Bool)
    (clipboard : Option Settled) (playOutcome : Settled) (events : List DomEvent) :
    clickListener ∉ (playMusicOnFirstInteraction w).listeners ∧
    keydownListener ∉ (playMusicOnFirstInteraction w).listeners ∧
    playRequests (playMusicOnFirstInteraction w).trace ≤ playRequests w.trace + 1 ∧
    playRequests (playMusicOnFirstInteraction (playMusicOnFirstInteraction w)).trace =
      playRequests w.trace +
        (if (w.elem "background-music").any (fun a => a.paused) then
          (if w.playOutcome = .fulfilled then 1 else 2) else 0) ∧
    callsTo "playMusicOnFirstInteraction" (dispatchAll events
      (init (loaded dom bodyOverflow uiCards hasLucide clipboard playOutcome))).trace ≤ 1 := by
  refine ⟨?_, ?_, ?_, firstInteraction_twice w, ?_⟩
  · rw [firstInteraction_listeners]; simp
  · rw [firstInteraction_listeners]; simp
  · rw [firstInteraction_trace]
    unfold playRequests
    split <;> simp [List.countP_append, List.countP_cons]
  · have h := dispatchAll_armedOrSpent events _
      (Or.inl (init_armed dom bodyOverflow uiCards hasLucide clipboard playOutcome))
    rcases h with ⟨_, h2⟩ | ⟨_, h2⟩
    · rw [h2]; exact Nat.zero_le 1
    · exact h2

/-- C7 as stated fails: with the audio paused and `play()` rejected, two
consecutive invocations issue two playback requests. -/
theorem firstInteraction_once_counterexample :
    (silentPage.elem "background-music").map (fun a => a.paused) = some true ∧
    silentPage.playOutcome = .rejected "NotAllowedError" ∧
    playRequests silentPage.trace = 0 ∧
    playRequests
      (playMusicOnFirstInteraction (playMusicOnFirstInteraction silentPage)).trace = 2 ∧
    ¬ playRequests
      (playMusicOnFirstInteraction (playMusicOnFirstInteraction silentPage)).trace ≤ 1 := by
  decide

/-! ## The clipboard copier -/

/-- What `trim` returns sits in the input between a run of white space and
another, and neither starts nor ends with white space. -/
theorem trimChars_spec (cs : List Char) :
    ∃ pre post, cs = pre ++ trimChars cs ++ post ∧
      (∀ c ∈ pre, isJSWhiteSpace c = true) ∧ (∀ c ∈ post, isJSWhiteSpace c = true) ∧
      (∀ c, (trimChars cs).head? = some c → isJSWhiteSpace c = false) ∧
      (∀ c, (trimChars cs).getLast? = some c → isJSWhiteSpace c = false) := by
  have hlast : ∀ c, (trimChars cs).getLast? = some c → isJSWhiteSpace c = false := by
    intro c hc
    unfold trimChars at hc
    rw [List.getLast?_reverse] at hc
    have := List.head?_dropWhile_not isJSWhiteSpace (cs.dropWhile isJSWhiteSpace).reverse
    rw [hc] at this
    simpa using this
  have hsplit : cs.dropWhile isJSWhiteSpace = trimChars cs ++
      ((cs.dropWhile isJSWhiteSpace).reverse.takeWhile isJSWhiteSpace).reverse := by
    unfold trimChars
    rw [← List.reverse_append, List.takeWhile_append_dropWhile, List.reverse_reverse]
  refine ⟨cs.takeWhile isJSWhiteSpace,
    ((cs.dropWhile isJSWhiteSpace).reverse.takeWhile isJSWhiteSpace).reverse, ?_, ?_, ?_, ?_,
    hlast⟩
  · rw [List.append_assoc, ← hsplit, List.takeWhile_append_dropWhile]
  · intro c hc; exact List.mem_takeWhile_imp hc
  · intro c hc; exact List.mem_takeWhile_imp (List.mem_reverse.mp hc)
  · intro c hc
    have hne : trimChars cs ≠ [] := by
      intro h; rw [h] at hc; simp at hc
    have h1 : (cs.dropWhile isJSWhiteSpace).head? = some c := by
      rw [hsplit, List.head?_append_of_ne_nil _ hne, hc]
    have := List.head?_dropWhile_not isJSWhiteSpace cs
    rw [h1] at this
    simpa using this

theorem showDialog_trace (w : World) :
    (showDialog w).trace = w.trace ++ (w.now, .call "showDialog") ::
      (if (w.elem "dialog-scrim").isSome ∧ (w.elem "dialog-container").isSome then
        [(w.now, .classAdd "dialog-scrim" ["visible"]),
         (w.now, .classAdd "dialog-container" ["visible"])] else []) := by
  by_cases hs : (w.elem "dialog-scrim").isSome
  · by_cases hc : (w.elem "dialog-container").isSome
    · rw [showDialog_bound w hs hc, if_pos ⟨hs, hc⟩]
      simp [World.classAdd, World.emit, World.update]
    · rw [showDialog_unbound w (Or.inr (by simpa using hc)), if_neg (fun h => hc h.2)]
      rfl
  · rw [showDialog_unbound w (Or.inl (by simpa using hs)), if_neg (fun h => hs h.1)]
    rfl

theorem callsTo_showDialog (w : World) :
    callsTo "showDialog" (showDialog w).trace = callsTo "showDialog" w.trace + 1 := by
  rw [showDialog_trace]
  split <;> simp [callsTo, List.countP_append, List.countP_cons]

theorem copyToClipboard_absent (elementId : String) (w : World)
    (h : w.elem elementId = none) :
    copyToClipboard elementId w =
      ⟨w.emit (.consoleWarn ("Element #" ++ elementId ++ " not found.")), none⟩ := by
  unfold copyToClipboard
  rw [h]

theorem copyToClipboard_present (elementId : String) (w : World) (el : Element)
    (h : w.elem elementId = some el) :
    copyToClipboard elementId w =
      match w.clipboard with
      | none => ⟨w, some (.typeError "navigator.clipboard is undefined")⟩
      | some .fulfilled => ⟨(w.emit (.clipboardWrite (jsTrim el.innerText))).enqueue .copyThen, none⟩
      | some (.rejected err) =>
        ⟨(w.emit (.clipboardWrite (jsTrim el.innerText))).enqueue (.copyCatch err), none⟩ := by
  unfold copyToClipboard
  rw [h]
  cases hc : w.clipboard with
  | none => rfl
  | some o => cases o <;> rfl

/-- C4: `copyToClipboard(elementId)`, once its promise reaction has run, has
entered `showDialog` exactly once if the element exists and the write was
fulfilled and not at all otherwise; with the element absent it logs one
warning and attempts no write; with the write rejected it logs the error and
raises nothing; the text written is the element's `innerText` trimmed, which is
the text between its leading and trailing white space. -/
theorem copyToClipboard_contract (elementId : String) (w : World) (hq : w.pending = []) :
    callsTo "showDialog" (settle (copyToClipboard elementId w).world).trace =
      callsTo "showDialog" w.trace +
        (if (w.elem elementId).isSome ∧ w.clipboard = some .fulfilled then 1 else 0) ∧
    (w.elem elementId = none →
      (copyToClipboard elementId w).thrown = none ∧
      (settle (copyToClipboard elementId w).world).trace = w.trace ++
        [(w.now, .consoleWarn ("Element #" ++ elementId ++ " not found."))]) ∧
    (∀ el err, w.elem elementId = some el → w.clipboard = some (.rejected err) →
      (copyToClipboard elementId w).thrown = none ∧
      (settle (copyToClipboard elementId w).world).trace = w.trace ++
        [(w.now, .clipboardWrite (jsTrim el.innerText)),
         (w.now, .consoleError "Failed to copy text:" err)]) ∧
    (∀ el, w.elem elementId = some el → w.clipboard = some .fulfilled →
      (copyToClipboard elementId w).thrown = none ∧
      settle (copyToClipboard elementId w).world =
        showDialog (w.emit (.clipboardWrite (jsTrim el.innerText)))) ∧
    (∀ s : String, ∃ pre post, s.data = pre ++ (jsTrim s).data ++ post ∧
      (∀ c ∈ pre, isJSWhiteSpace c = true) ∧ (∀ c ∈ post, isJSWhiteSpace c = true) ∧
      (∀ c, (jsTrim s).data.head? = some c → isJSWhiteSpace c = false) ∧
      (∀ c, (jsTrim s).data.getLast? = some c → isJSWhiteSpace c = false)) := by
  have hfulfilled : ∀ el, w.elem elementId = some el → w.clipboard = some .fulfilled →
      settle (copyToClipboard elementId w).world =
        showDialog (w.emit (.clipboardWrite (jsTrim el.innerText))) := by
    intro el hel hcl
    rw [copyToClipboard_present elementId w el hel, hcl]
    simp only [settle, World.enqueue, World.emit, hq, List.nil_append, List.foldl_cons,
      List.foldl_nil, runJob]
  have hrejected : ∀ el err, w.elem elementId = some el → w.clipboard = some (.rejected err) →
      (settle (copyToClipboard elementId w).world).trace = w.trace ++
        [(w.now, .clipboardWrite (jsTrim el.innerText)),
         (w.now, .consoleError "Failed to copy text:" err)] := by
    intro el err hel hcl
    rw [copyToClipboard_present elementId w el hel, hcl]
    simp [settle, World.enqueue, World.emit, hq, runJob]
  refine ⟨?_, ?_, ?_, ?_, fun s => trimChars_spec s.data⟩
  · cases hel : w.elem elementId with
    | none =>
      rw [copyToClipboard_absent elementId w hel]
      simp [settle, hq, World.emit, callsTo, List.countP_append, List.countP_cons]
    | some el =>
      cases hcl : w.clipboard with
      | none =>
        rw [copyToClipboard_present elementId w el hel, hcl]
        simp [settle, hq]
      | some o =>
        cases o with
        | fulfilled =>
          rw [hfulfilled el hel hcl, callsTo_showDialog]
          simp [World.emit, callsTo, List.countP_append, List.countP_cons]
        | rejected err =>
          rw [hrejected el err hel hcl]
          simp [callsTo, List.countP_append, List.countP_cons]
  · intro hel
    rw [copyToClipboard_absent elementId w hel]
    exact ⟨rfl, by simp [settle, hq, World.emit]⟩
  · intro el err hel hcl
    refine ⟨?_, hrejected el err hel hcl⟩
    rw [copyToClipboard_present elementId w el hel, hcl]
  · intro el hel hcl
    refine ⟨?_, hfulfilled el hel hcl⟩
    rw [copyToClipboard_present elementId w el hel, hcl]

theorem copyToClipboard_contract_witness :
    callsTo "showDialog" (settle (copyToClipboard "cmd-1" commandPage).world).trace = 1 ∧
    (settle (copyToClipboard "cmd-2" commandPage).world).trace =
      [(0, .consoleWarn "Element #cmd-2 not found.")] ∧
    (settle (copyToClipboard "cmd-1" commandPage).world).trace =
      [(0, .clipboardWrite "npm run setup"), (0, .call "showDialog"),
       (0, .classAdd "dialog-scrim" ["visible"]),
       (0, .classAdd "dialog-container" ["visible"])] :=
  ⟨(copyToClipboard_contract "cmd-1" commandPage (by decide)).1,
   ((copyToClipboard_contract "cmd-2" commandPage (by decide)).2.1 (by decide)).2,
   by
    rw [((copyToClipboard_contract "cmd-1" commandPage (by decide)).2.2.2.1
      { innerText := "  npm run setup \n" } (by decide) (by decide)).2]
    decide⟩

/-! ## The social link router -/

/-- A key that is neither registered nor inherited gets the warning and no window. -/
theorem goToSocialLink_unregistered (platform : String) (w : World)
    (h1 : links.lookup platform = none) (h2 : objectPrototype.lookup platform = none) :
    goToSocialLink platform w =
      w.emit (.consoleWarn ("No link configured for platform: " ++ platform)) := by
  unfold goToSocialLink getProperty
  rw [h1, h2]
  rfl

/-- C2 at its failing inputs: for the unregistered keys `constructor`,
`toString` and `__proto__` the lookup finds the inherited property, so
`goToSocialLink` opens a window on that value and logs no warning.  For
`discord` it opens the configured URL in `_blank` and logs nothing, and for a
key such as `twitter` it only logs the warning. -/
theorem goToSocialLink_inherited (w : World) :
    (goToSocialLink "constructor" w).trace =
      w.trace ++ [(w.now, .windowOpen (.func "Object") "_blank")] ∧
    (goToSocialLink "toString" w).trace =
      w.trace ++ [(w.now, .windowOpen (.func "toString") "_blank")] ∧
    (goToSocialLink "__proto__" w).trace =
      w.trace ++ [(w.now, .windowOpen (.object "Object.prototype") "_blank")] ∧
    (goToSocialLink "discord" w).trace =
      w.trace ++ [(w.now, .windowOpen (.str "https://discord.gg/VV4w5AdJFh") "_blank")] ∧
    (goToSocialLink "twitter" w).trace =
      w.trace ++ [(w.now, .consoleWarn "No link configured for platform: twitter")] := by
  refine ⟨?_, ?_, ?_, ?_, ?_⟩ <;> rfl

/-! ## Exceptions at the entry points -/

/-- C3 at its failing inputs: `closeZoom` raises exactly when the modal is
bound and the image is not, `openZoom` exactly when modal and image are bound
and the caption is not, `copyToClipboard` and `copyCommand` exactly when the
element exists and the clipboard capability is absent; each is evaluated on a
page of that kind. -/
theorem entry_points_raise (w : World) (src title elementId : String) :
    (closeZoom w).thrown =
      (if (w.elem "zoom-modal").isSome ∧ (w.elem "zoom-image").isNone then
        some (.typeError "zoomImage is null") else none) ∧
    (openZoom src title w).thrown =
      (if (w.elem "zoom-modal").isSome ∧ (w.elem "zoom-image").isSome ∧
          (w.elem "zoom-title").isNone then
        some (.typeError "document.getElementById(...) is null") else none) ∧
    (copyToClipboard elementId w).thrown =
      (if (w.elem elementId).isSome ∧ w.clipboard = none then
        some (.typeError "navigator.clipboard is undefined") else none) ∧
    (copyCommand elementId w).thrown = (copyToClipboard elementId w).thrown ∧
    (closeZoom galleryNoImage).thrown = some (.typeError "zoomImage is null") ∧
    (closeZoom galleryNoImage).world.bodyOverflow = "auto" ∧
    (openZoom "a.png" "A" galleryNoCaption).thrown =
      some (.typeError "document.getElementById(...) is null") ∧
    (copyToClipboard "cmd-1" noClipboardPage).thrown =
      some (.typeError "navigator.clipboard is undefined") := by
  refine ⟨?_, ?_, ?_, rfl, by decide, by decide, by decide, by decide⟩
  · unfold closeZoom
    cases hm : w.elem "zoom-modal" with
    | none => simp
    | some m =>
      cases hi : w.elem "zoom-image" <;> simp [hi]
  · unfold openZoom
    cases hm : w.elem "zoom-modal" with
    | none => simp
    | some m =>
      cases hi : w.elem "zoom-image" with
      | none => simp
      | some i =>
        cases ht : w.elem "zoom-title" <;> simp [ht]
  · cases hel : w.elem elementId with
    | none => rw [copyToClipboard_absent elementId w hel]; simp
    | some el =>
      rw [copyToClipboard_present elementId w el hel]
      cases hc : w.clipboard with
      | none => simp
      | some o => cases o <;> simp

end Script
